import Mathlib

set_option allowUnsafeReducibility true
attribute [local semireducible] Rat.add Rat.sub Rat.mul Rat.inv Rat.div

/-!
Shallow embedding of the Drew backend multi-agent orchestration core:
the rule-based reflection tools (`backend/agent_tools.py`), the semantic
search service with its lexical fallback (`backend/semantic_search.py`),
the supervisor agent graph (`backend/multi_agent_system.py`) and the
tool-calling recommendation agent (`backend/multi_agent_system_refactored.py`).

External collaborators (the OpenAI embedding and chat APIs, the MongoDB
aggregation pipeline, `json.loads` on LLM output) are modelled as oracle
parameters: an `Except String _` value stands for one call outcome (error =
the Python call raised), and a function parameter stands for a family of
such outcomes.  Python floats are modelled by `ℚ`; Mongo ObjectId values of
recommendation records are modelled by `Nat` counters (the source only
compares them for equality and converts them with `str`/`ObjectId`).
-/

namespace Drew

/-!
String primitives.  The corresponding core `String` functions (`splitOn`,
`toLower`, `trim`, `startsWith`, ...) are defined by well-founded recursion
over byte positions and do not evaluate inside the kernel, so the model uses
structurally recursive list-based equivalents throughout.
-/

/-- Prefix test on character lists. -/
def listPrefix : List Char → List Char → Bool
  | [], _ => true
  | _ :: _, [] => false
  | c :: cs, d :: ds => c == d && listPrefix cs ds

/-- Infix (substring) test on character lists. -/
def listInfix (needle : List Char) : List Char → Bool
  | [] => listPrefix needle []
  | d :: ds => listPrefix needle (d :: ds) || listInfix needle ds

/-- Python `needle in hay` substring test on strings. -/
def pyInStr (needle hay : String) : Bool :=
  listInfix needle.toList hay.toList

/-- Python `s.startswith(prefix)`. -/
def pyStartsWith (s pre : String) : Bool :=
  listPrefix pre.toList s.toList

/-- ASCII lower-casing of one character. -/
def pyLowerChar (c : Char) : Char :=
  if 65 ≤ c.toNat ∧ c.toNat ≤ 90 then Char.ofNat (c.toNat + 32) else c

/-- ASCII upper-casing of one character. -/
def pyUpperChar (c : Char) : Char :=
  if 97 ≤ c.toNat ∧ c.toNat ≤ 122 then Char.ofNat (c.toNat - 32) else c

/-- Python `s.lower()` (ASCII). -/
def pyLower (s : String) : String :=
  String.mk (s.toList.map pyLowerChar)

/-- The whitespace characters stripped by Python `strip()` / `split()`. -/
def isPySpace (c : Char) : Bool :=
  c == ' ' || c == Char.ofNat 9 || c == Char.ofNat 10 || c == Char.ofNat 13

/-- Python `s.strip()`. -/
def pyStripWs (s : String) : String :=
  String.mk (((s.toList.dropWhile isPySpace).reverse.dropWhile isPySpace).reverse)

/-- Python slicing `s[:n]`. -/
def pyTake (s : String) (n : Nat) : String :=
  String.mk (s.toList.take n)

/-- Python slicing `s[n:]`. -/
def pyDrop (s : String) (n : Nat) : String :=
  String.mk (s.toList.drop n)

/-- Fueled splitter on character lists (the fuel starts at the input length,
enough for a full traversal; structural recursion so it evaluates in the
kernel). -/
def splitListAux (sep : List Char) : Nat → List Char → List Char → List (List Char)
  | _, [], acc => [acc.reverse]
  | 0, rest, acc => [acc.reverse ++ rest]
  | fuel + 1, d :: ds, acc =>
      if listPrefix sep (d :: ds) then
        acc.reverse :: splitListAux sep fuel (List.drop (sep.length - 1) ds) []
      else
        splitListAux sep fuel ds (d :: acc)

/-- Python `s.split(sep)` for a non-empty separator. -/
def pySplit (s sep : String) : List String :=
  if sep.toList.isEmpty then [s]
  else (splitListAux sep.toList s.toList.length s.toList []).map String.mk

/-- Word splitter of the no-argument Python `s.split()`: whitespace runs
separate words, empty pieces are dropped. -/
def wordsAux : List Char → List Char → List String
  | [], acc => if acc.isEmpty then [] else [String.mk acc.reverse]
  | c :: cs, acc =>
      if isPySpace c then
        if acc.isEmpty then wordsAux cs []
        else String.mk acc.reverse :: wordsAux cs []
      else wordsAux cs (c :: acc)

/-- Python `s.split()` without argument. -/
def pyWords (s : String) : List String :=
  wordsAux s.toList []

/-- Python truthiness of an optional string field of a dict
(`None`, a missing key and `""` are falsy). -/
def truthyStr : Option String → Bool
  | none => false
  | some s => s != ""

/-- Python truthiness of an optional integer field (`None` and `0` are falsy). -/
def truthyInt : Option Int → Bool
  | none => false
  | some n => n != 0

/-- Folds a digit list into a natural number, failing on a non-digit. -/
def parseDigits (cs : List Char) : Option Nat :=
  match cs with
  | [] => none
  | _ => cs.foldl
      (fun acc? c => acc?.bind fun acc =>
        if c.isDigit then some (acc * 10 + (c.toNat - 48)) else none)
      (some 0)

/-- Model of Python `int(s)` on a string: `none` when the conversion raises
`ValueError`.  (Python also accepts a leading `+` and underscores, which this
model rejects; no claim depends on those inputs.) -/
def pyInt (s : String) : Option Int :=
  match (pyStripWs s).toList with
  | [] => none
  | c :: cs =>
      if c == Char.ofNat 45 then (parseDigits cs).map (fun n => -(n : Int))
      else (parseDigits ((pyStripWs s).toList)).map (fun n => (n : Int))

/-- Model of Python `float(s)` on a string: decimal notation with optional
sign and fractional part, `none` when the conversion raises `ValueError`.
(Scientific notation and `inf`/`nan` are not modelled; no claim uses them.) -/
def pyFloat (s : String) : Option ℚ :=
  let t := pyStripWs s
  let (sign, rest) :=
    if pyStartsWith t "-" then ((-1 : ℚ), pyDrop t 1)
    else if pyStartsWith t "+" then ((1 : ℚ), pyDrop t 1)
    else ((1 : ℚ), t)
  match pySplit rest "." with
  | [intPart] => (parseDigits intPart.toList).map (fun n => sign * (n : ℚ))
  | [intPart, fracPart] =>
      if intPart == "" && fracPart == "" then none
      else
        let ip := if intPart == "" then some 0 else parseDigits intPart.toList
        let fp := if fracPart == "" then some 0 else parseDigits fracPart.toList
        match ip, fp with
        | some i, some f =>
            some (sign * ((i : ℚ) + (f : ℚ) / ((10 : ℚ) ^ fracPart.length)))
        | _, _ => none
  | _ => none

/-- One itinerary item as stored on a recommendation
(`duration`, `title`, `description` keys; `item.get('duration', 0)`). -/
structure ItineraryItem where
  duration : Int := 0
  title : String := ""
  description : String := ""
deriving DecidableEq

/-- An activity document from the `activities` collection, restricted to the
fields the orchestration core reads.  `shortDescription` is an `Option` so the
`activity.get('shortDescription', activity.get('description', ''))` default
chain in `create_recommendation` is representable. -/
structure Activity where
  oid : String
  title : String := ""
  shortDescription : Option String := none
  description : String := ""
  longDescription : String := ""
  category : String := ""
  city : String := ""
  state : String := ""
  thumbnailUrl : Option String := none
  minParticipants : Option Int := none
  maxParticipants : Option Int := none
  price : Option ℚ := none
  preferredDuration : Option Int := none
  itineraries : List ItineraryItem := []
  offerings : List String := []
  createdAt : Option String := none
  updatedAt : Option String := none
deriving DecidableEq

/-- The user-context dict extracted by the recommendation agent and read by
`reflect_and_transform`, `reflect_on_itinerary` and `reflect_on_offerings`.
String-valued keys keep the raw LLM output (so unparseable values are
representable); the `requires*` flags keep only their Python truthiness. -/
structure UserContext where
  groupSize : Option String := none
  preferredLocation : Option String := none
  budget : Option String := none
  preferredDuration : Option Int := none
  pace : Option String := none
  requiresFood : Bool := false
  requiresCertificate : Bool := false
  requiresTransport : Bool := false
  requiresMaterials : Bool := false
deriving DecidableEq

/-- The reflection dict built by `AgentTools.reflect_and_transform`. -/
structure Reflection where
  isFit : Bool
  matchedCriteria : List String
  concerns : List String
  score : ℚ
deriving DecidableEq

/-- The participants check of `reflect_and_transform`
(agent_tools.py lines 165-180): a stated group size that parses is rewarded
with +0.1 when inside the activity bounds and penalised with -0.2 otherwise;
a conversion failure is skipped.  (In the source the activity bounds also go
through `int(...)` inside the same `try`; they are typed `Option Int` here,
so that conversion always succeeds.) -/
def groupStep (activity : Activity) (ctx : UserContext) (r : Reflection) : Reflection :=
  if truthyStr ctx.groupSize then
    match pyInt (ctx.groupSize.getD "") with
    | some group_size =>
        let min_participants := activity.minParticipants.getD 0
        let max_participants := activity.maxParticipants.getD 999
        if min_participants ≤ group_size ∧ group_size ≤ max_participants then
          { r with
            matchedCriteria := r.matchedCriteria ++
              ["Suitable for " ++ toString group_size ++ " participants"],
            score := r.score + 1/10 }
        else
          { r with
            concerns := r.concerns ++
              ["Activity designed for " ++ toString min_participants ++ "-" ++
                toString max_participants ++ " people"],
            score := r.score - 2/10 }
    | none => r
  else r

/-- The location check of `reflect_and_transform` (agent_tools.py lines
182-186): a stated preferred location that is a case-insensitive substring of
the activity city is rewarded with +0.1; the source has no `else` branch, so a
non-matching location changes nothing. -/
def locationStep (activity : Activity) (ctx : UserContext) (r : Reflection) : Reflection :=
  if truthyStr ctx.preferredLocation then
    if pyInStr (pyLower (ctx.preferredLocation.getD "")) (pyLower activity.city) then
      { r with
        matchedCriteria := r.matchedCriteria ++ ["In preferred location"],
        score := r.score + 1/10 }
    else r
  else r

/-- The budget check of `reflect_and_transform` (agent_tools.py lines
188-202): a stated budget that parses is rewarded with +0.1 when the activity
price is within it and penalised with -0.2 otherwise; a conversion failure is
skipped. -/
def budgetStep (activity : Activity) (ctx : UserContext) (r : Reflection) : Reflection :=
  if truthyStr ctx.budget then
    match pyFloat (ctx.budget.getD "") with
    | some budget =>
        let price := activity.price.getD 0
        if price ≤ budget then
          { r with
            matchedCriteria := r.matchedCriteria ++ ["Within budget"],
            score := r.score + 1/10 }
        else
          { r with
            concerns := r.concerns ++
              ["Price $" ++ toString price ++ " exceeds budget"],
            score := r.score - 2/10 }
    | none => r
  else r

/-- Result dict of `reflect_and_transform`: the unchanged activity plus the
reflection metadata. -/
structure ReflectOutput where
  activity : Activity
  reflection : Reflection
deriving DecidableEq

/-- `AgentTools.reflect_and_transform` (agent_tools.py lines 140-209):
baseline 0.8, the three sequential soft-constraint checks, then the final
clamp `max(0, min(1, score))`. -/
def reflect_and_transform (activity : Activity) (user_context : UserContext) :
    ReflectOutput :=
  let r : Reflection := { isFit := true, matchedCriteria := [], concerns := [], score := 4/5 }
  let r := groupStep activity user_context r
  let r := locationStep activity user_context r
  let r := budgetStep activity user_context r
  { activity := activity
    reflection := { r with score := max 0 (min 1 r.score) } }

/-- Score contribution of the participants check, written per constraint for
the statement of the reflection theorems. -/
def groupContrib (activity : Activity) (ctx : UserContext) : ℚ :=
  if truthyStr ctx.groupSize then
    match pyInt (ctx.groupSize.getD "") with
    | some g =>
        if activity.minParticipants.getD 0 ≤ g ∧ g ≤ activity.maxParticipants.getD 999
        then 1/10 else -(2/10)
    | none => 0
  else 0

/-- The matchedCriteria entries contributed by the participants check. -/
def groupMatchedList (activity : Activity) (ctx : UserContext) : List String :=
  if truthyStr ctx.groupSize then
    match pyInt (ctx.groupSize.getD "") with
    | some g =>
        if activity.minParticipants.getD 0 ≤ g ∧ g ≤ activity.maxParticipants.getD 999
        then ["Suitable for " ++ toString g ++ " participants"] else []
    | none => []
  else []

/-- The concerns entries contributed by the participants check. -/
def groupConcernList (activity : Activity) (ctx : UserContext) : List String :=
  if truthyStr ctx.groupSize then
    match pyInt (ctx.groupSize.getD "") with
    | some g =>
        if activity.minParticipants.getD 0 ≤ g ∧ g ≤ activity.maxParticipants.getD 999
        then []
        else ["Activity designed for " ++ toString (activity.minParticipants.getD 0) ++
              "-" ++ toString (activity.maxParticipants.getD 999) ++ " people"]
    | none => []
  else []

/-- Score contribution of the location check: never negative, because the
source has no penalty branch for a non-matching location. -/
def locContrib (activity : Activity) (ctx : UserContext) : ℚ :=
  if truthyStr ctx.preferredLocation then
    if pyInStr (pyLower (ctx.preferredLocation.getD "")) (pyLower activity.city)
    then 1/10 else 0
  else 0

/-- The matchedCriteria entries contributed by the location check. -/
def locMatchedList (activity : Activity) (ctx : UserContext) : List String :=
  if truthyStr ctx.preferredLocation then
    if pyInStr (pyLower (ctx.preferredLocation.getD "")) (pyLower activity.city)
    then ["In preferred location"] else []
  else []

/-- Score contribution of the budget check. -/
def budgetContrib (activity : Activity) (ctx : UserContext) : ℚ :=
  if truthyStr ctx.budget then
    match pyFloat (ctx.budget.getD "") with
    | some b => if activity.price.getD 0 ≤ b then 1/10 else -(2/10)
    | none => 0
  else 0

/-- The matchedCriteria entries contributed by the budget check. -/
def budgetMatchedList (activity : Activity) (ctx : UserContext) : List String :=
  if truthyStr ctx.budget then
    match pyFloat (ctx.budget.getD "") with
    | some b => if activity.price.getD 0 ≤ b then ["Within budget"] else []
    | none => []
  else []

/-- The concerns entries contributed by the budget check. -/
def budgetConcernList (activity : Activity) (ctx : UserContext) : List String :=
  if truthyStr ctx.budget then
    match pyFloat (ctx.budget.getD "") with
    | some b =>
        if activity.price.getD 0 ≤ b then []
        else ["Price $" ++ toString (activity.price.getD 0) ++ " exceeds budget"]
    | none => []
  else []

/-- The reflection dict built by `AgentTools.reflect_on_itinerary`. -/
structure ItineraryReflection where
  isGoodFit : Bool
  strengths : List String
  suggestions : List String
  confidence : ℚ
deriving DecidableEq

/-- `AgentTools.reflect_on_itinerary` (agent_tools.py lines 256-298):
duration within 30 minutes of the stated expectation is a strength, otherwise
a suggestion; pace keywords add suggestions; good fit iff no suggestions. -/
def reflect_on_itinerary (itinerary : List ItineraryItem)
    (user_expectations : UserContext) : ItineraryReflection :=
  let total_duration : Int := (itinerary.map (·.duration)).sum
  let strengths : List String := []
  let suggestions : List String := []
  let (strengths, suggestions) :=
    if truthyInt user_expectations.preferredDuration then
      let expected := user_expectations.preferredDuration.getD 0
      if (total_duration - expected).natAbs ≤ 30 then
        (strengths ++ ["Duration matches expectations"], suggestions)
      else
        (strengths, suggestions ++
          ["Consider adjusting duration (current: " ++ toString total_duration ++
           "min, expected: " ++ toString expected ++ "min)"])
    else (strengths, suggestions)
  let suggestions :=
    if truthyStr user_expectations.pace then
      let pace := pyLower (user_expectations.pace.getD "")
      if pace == "relaxed" && total_duration > 180 then
        suggestions ++ ["Consider breaking into smaller segments for a more relaxed pace"]
      else if pace == "intensive" && total_duration < 120 then
        suggestions ++ ["Could add more activities for a more intensive experience"]
      else suggestions
    else suggestions
  { isGoodFit := suggestions.length == 0
    strengths := strengths
    suggestions := suggestions
    confidence := 8/10 }

/-- The reflection dict built by `AgentTools.reflect_on_offerings`. -/
structure OfferingsReflection where
  areSufficient : Bool
  needed : List String
  optional : List String
  confidence : ℚ
deriving DecidableEq

/-- `AgentTools.reflect_on_offerings` (agent_tools.py lines 377-414): the
four boolean need flags of `user_needs` each add one needed-offering
description; `areSufficient` is recomputed as `len(needed) == 0` at the end.
The `current_offerings` parameter is accepted but never read, exactly as in
the source. -/
def reflect_on_offerings (current_offerings : List String)
    (user_needs : UserContext) : OfferingsReflection :=
  let needed : List String := []
  let needed := if user_needs.requiresFood then needed ++ ["Refreshments or catering"] else needed
  let needed := if user_needs.requiresCertificate then needed ++ ["Certificate of completion"] else needed
  let needed := if user_needs.requiresTransport then needed ++ ["Transportation service"] else needed
  let needed := if user_needs.requiresMaterials then needed ++ ["Materials and supplies"] else needed
  { areSufficient := needed.length == 0
    needed := needed
    optional := []
    confidence := 7/10 }

/-- Outcome of `SemanticSearchService.generate_embedding`
(semantic_search.py lines 23-33): the `except` clause turns every API error
into an empty vector.  The `api` parameter is the oracle outcome of the one
`client.embeddings.create` call. -/
def generate_embedding (api : Except String (List ℚ)) : List ℚ :=
  match api with
  | .ok v => v
  | .error _ => []

/-- A structured Mongo filter document, modelled as a conjunction of
per-document predicates (one per top-level filter key). -/
def MongoFilter : Type := List (Activity → Bool)

/-- Conjunction semantics of a Mongo `$match` document. -/
def matchesFilter (f : MongoFilter) (a : Activity) : Bool :=
  f.all (fun p => p a)

/-- The case-insensitive `$regex` disjunction of `_fallback_text_search`
(semantic_search.py lines 192-200) over title, shortDescription,
longDescription, category and city.  A metacharacter-free `$regex` with
option `i` is a case-insensitive substring match, which is how the query is
modelled here; a document lacking `shortDescription` is not matched on that
field. -/
def fallback_matches (query : String) (a : Activity) : Bool :=
  pyInStr (pyLower query) (pyLower a.title) ||
  (match a.shortDescription with
   | some sd => pyInStr (pyLower query) (pyLower sd)
   | none => false) ||
  pyInStr (pyLower query) (pyLower a.longDescription) ||
  pyInStr (pyLower query) (pyLower a.category) ||
  pyInStr (pyLower query) (pyLower a.city)

/-- `SemanticSearchService._fallback_text_search` (semantic_search.py lines
185-206): `find` over the activities store with the `$or` regex document
(ANDed with the optional structured filters), truncated by
`.limit(limit)` / `to_list(limit)`, in store-native order. -/
def fallback_text_search (store : List Activity) (query : String)
    (limit : Nat) (filters : Option MongoFilter) : List Activity :=
  (store.filter (fun a =>
      fallback_matches query a &&
      (match filters with
       | some f => matchesFilter f a
       | none => true))).take limit

/-- Oracle outcomes of the two external calls one
`semantic_search_activities` invocation can make: the embedding API call and
the Mongo aggregation pipeline (the outcome `agg` is what the aggregation
WOULD return; the function never reaches it, see below). -/
structure SearchCall where
  api : Except String (List ℚ)
  agg : Except String (List Activity)

/-- `SemanticSearchService.semantic_search_activities` (semantic_search.py
lines 118-183): embed the query; an empty query embedding falls back to the
lexical text search.  With a non-empty embedding, building the similarity
pipeline evaluates `query_embedding["$$this"]` (line 160) - indexing a Python
`List[float]` with a string - which raises `TypeError` BEFORE the
`try:` of line 177, so the exception escapes to the caller: the aggregation
(`call.agg`) and the `except`-to-fallback of lines 180-183 are unreachable. -/
def semantic_search_activities (store : List Activity) (call : SearchCall)
    (query : String) (limit : Nat) (filters : Option MongoFilter) :
    Except String (List Activity) :=
  let query_embedding := generate_embedding call.api
  if query_embedding.isEmpty then
    .ok (fallback_text_search store query limit filters)
  else
    .error "TypeError: list indices must be integers or slices, not str"

/-- `AgentTools.search_activities` (agent_tools.py lines 25-54): delegates to
the semantic search inside `try:`; its `except` clause returns `[]`, which
catches the `TypeError` escaping from a non-empty-embedding search. -/
def search_activities (store : List Activity) (call : SearchCall)
    (query : String) (filters : Option MongoFilter) (limit : Nat) :
    List Activity :=
  match semantic_search_activities store call query limit filters with
  | .ok results => results
  | .error _ => []

/-- A stored recommendation document body (the `rec_data` dict of
`create_recommendation`, agent_tools.py lines 93-107). -/
structure RecData where
  activityId : String
  projectId : String
  userId : String
  title : String := ""
  shortDescription : String := ""
  longDescription : String := ""
  thumbnailUrl : Option String := none
  itinerary : List ItineraryItem := []
  preRequisiteIds : List String := []
  offeringIds : List String := []
  reasonToRecommend : String := ""
  duration : Option Int := none
  score : ℚ := 0
  createdAt : Option String := none
  updatedAt : Option String := none
deriving DecidableEq

/-- A document of the `recommendations` collection: a Mongo `_id` (modelled
as a `Nat` drawn from the database counter) plus the record body. -/
structure RecRecord where
  rid : Nat
  data : RecData
deriving DecidableEq

/-- A document of the `projects` collection, restricted to the fields the
core writes (`recommendationIds`, updated with `$addToSet`). -/
structure Project where
  pid : String
  recommendationIds : List Nat := []
deriving DecidableEq

/-- A document of the `offerings` collection, restricted to the fields
`search_offerings` reads. -/
structure Offering where
  oid : String
  shortDescription : String := ""
  longDescription : String := ""
deriving DecidableEq

/-- The document store shared by all tool calls.  `nextRecId` is the counter
from which fresh recommendation `_id` values are drawn on insert. -/
structure Db where
  activities : List Activity := []
  recommendations : List RecRecord := []
  projects : List Project := []
  offerings : List Offering := []
  nextRecId : Nat := 0
deriving DecidableEq

/-- Mongo `update_one`: rewrite the first document matching the filter,
leave the rest unchanged. -/
def updateFirst (p : α → Bool) (f : α → α) : List α → List α
  | [] => []
  | x :: xs => if p x then f x :: xs else x :: updateFirst p f xs

/-- The composite-key filter of the `find_one` in `create_recommendation`
(agent_tools.py lines 86-90). -/
def recKeyMatch (project_id activity_id user_id : String) (r : RecRecord) : Bool :=
  r.data.projectId == project_id && r.data.activityId == activity_id &&
    r.data.userId == user_id

/-- The `rec_data` dict of `create_recommendation` (agent_tools.py lines
93-107).  `customized_title` and `customized_description` are accepted by the
source function but never written into `rec_data`, exactly as here. -/
def mkRecData (project_id user_id : String) (activity : Activity)
    (reason_to_recommend : String) (score : ℚ) : RecData :=
  { activityId := activity.oid
    projectId := project_id
    userId := user_id
    title := activity.title
    shortDescription := activity.shortDescription.getD activity.description
    longDescription := activity.longDescription
    thumbnailUrl := activity.thumbnailUrl
    itinerary := activity.itineraries
    preRequisiteIds := activity.offerings.take 3
    offeringIds := activity.offerings.take 3
    reasonToRecommend := reason_to_recommend
    duration := activity.preferredDuration
    score := score
    createdAt := activity.createdAt
    updatedAt := activity.updatedAt }

/-- `AgentTools.create_recommendation` (agent_tools.py lines 56-138): upsert
keyed on (projectId, activityId, userId).  An existing record is updated in
place through its `_id`; otherwise a record with a fresh `_id` is inserted
and its id is `$addToSet`-appended to the owning project.  Returns the
record as the source returns `rec_data` with `_id`/`id` set. -/
def create_recommendation (db : Db) (project_id user_id : String)
    (activity : Activity) (reason_to_recommend : String) (score : ℚ)
    (customized_title : Option String := none)
    (customized_description : Option String := none) : RecRecord × Db :=
  let activity_id := activity.oid
  let rec_data := mkRecData project_id user_id activity reason_to_recommend score
  match db.recommendations.find? (recKeyMatch project_id activity_id user_id) with
  | some existing =>
      let db' := { db with
        recommendations := updateFirst (fun r => r.rid == existing.rid)
          (fun r => { r with data := rec_data }) db.recommendations }
      ({ rid := existing.rid, data := rec_data }, db')
  | none =>
      let rid := db.nextRecId
      let db' := { db with
        recommendations := db.recommendations ++ [{ rid := rid, data := rec_data }]
        nextRecId := rid + 1
        projects := updateFirst (fun p => p.pid == project_id)
          (fun p => { p with recommendationIds :=
            if rid ∈ p.recommendationIds then p.recommendationIds
            else p.recommendationIds ++ [rid] }) db.projects }
      ({ rid := rid, data := rec_data }, db')

/-- `AgentTools.retrieve_recommendation_details` (agent_tools.py lines
215-254): `find_one` by `_id` and `userId`; a missing record raises
(`ValueError`), which this model returns as an error.  The
`activityDetails` enrichment is not modelled because no downstream agent
reads it. -/
def retrieve_recommendation_details (db : Db) (recommendation_id : Nat)
    (user_id : String) : Except String RecRecord :=
  match db.recommendations.find?
      (fun r => r.rid == recommendation_id && r.data.userId == user_id) with
  | some rec => .ok rec
  | none => .error "Recommendation not found"

/-- `AgentTools.update_recommendation_itinerary` (agent_tools.py lines
300-339): authorize-then-update by (`_id`, `userId`); zero matches raise. -/
def update_recommendation_itinerary (db : Db) (recommendation_id : Nat)
    (user_id : String) (new_itinerary : List ItineraryItem) : Except String Db :=
  match db.recommendations.find?
      (fun r => r.rid == recommendation_id && r.data.userId == user_id) with
  | none => .error "Recommendation not found"
  | some _ => .ok { db with
      recommendations := updateFirst
        (fun r => r.rid == recommendation_id && r.data.userId == user_id)
        (fun r => { r with data := { r.data with itinerary := new_itinerary } })
        db.recommendations }

/-- `AgentTools.update_recommendation_offerings` (agent_tools.py lines
416-455): authorize-then-update by (`_id`, `userId`); zero matches raise. -/
def update_recommendation_offerings (db : Db) (recommendation_id : Nat)
    (user_id : String) (offering_ids : List String) : Except String Db :=
  match db.recommendations.find?
      (fun r => r.rid == recommendation_id && r.data.userId == user_id) with
  | none => .error "Recommendation not found"
  | some _ => .ok { db with
      recommendations := updateFirst
        (fun r => r.rid == recommendation_id && r.data.userId == user_id)
        (fun r => { r with data := { r.data with offeringIds := offering_ids } })
        db.recommendations }

/-- `AgentTools.search_offerings` (agent_tools.py lines 345-375):
case-insensitive regex match over the offering descriptions, truncated by
`.limit(limit)`. -/
def search_offerings (db : Db) (query : String) (limit : Nat) : List Offering :=
  (db.offerings.filter (fun o =>
      pyInStr (pyLower query) (pyLower o.shortDescription) ||
      pyInStr (pyLower query) (pyLower o.longDescription))).take limit

/-- The composite-key triple of a recommendation record. -/
def recTriple (r : RecRecord) : String × String × String :=
  (r.data.projectId, r.data.activityId, r.data.userId)

/-- Number of recommendation records stored for one
(projectId, activityId, userId) triple. -/
def tripleCount (db : Db) (project_id activity_id user_id : String) : Nat :=
  (db.recommendations.filter (recKeyMatch project_id activity_id user_id)).length

/-- Store invariant: no two recommendation records share a composite-key
triple, `_id` values are distinct, and every stored `_id` is below the fresh
counter (so a newly drawn `_id` never collides). -/
def DbInv (db : Db) : Prop :=
  (db.recommendations.map recTriple).Nodup ∧
  (db.recommendations.map (·.rid)).Nodup ∧
  ∀ r ∈ db.recommendations, r.rid < db.nextRecId

instance (db : Db) : Decidable (DbInv db) := by
  unfold DbInv; infer_instance

/-- Python `s.strip(c)` for a single character: remove every leading and
trailing occurrence of `c`. -/
def stripChar (c : Char) (s : String) : String :=
  String.mk (((s.toList.dropWhile (· == c)).reverse.dropWhile (· == c)).reverse)

/-- The double-quote character. -/
def dquote : Char := Char.ofNat 34

/-- The single-quote character. -/
def squote : Char := Char.ofNat 39

/-- The parsed outcome of the planning LLM call of the recommendation agent
(multi_agent_system.py lines 127-153) together with the parse defaults. -/
structure PlanParse where
  project_name : String
  project_description : String
  search_query : String
  filters : MongoFilter
  user_context : UserContext

/-- One iteration of the line loop parsing the planning response
(multi_agent_system.py lines 135-153).  `parseFilters` and `parseContext`
are the `json.loads` oracles; a `none` is the caught `except: pass`. -/
def parsePlanLine (parseFilters : String → Option MongoFilter)
    (parseContext : String → Option UserContext)
    (acc : PlanParse) (line : String) : PlanParse :=
  if pyStartsWith line "PROJECT_NAME:" then
    { acc with project_name :=
        stripChar dquote (pyStripWs ((pySplit line "PROJECT_NAME:").getD 1 "")) }
  else if pyStartsWith line "PROJECT_DESCRIPTION:" then
    { acc with project_description :=
        stripChar dquote (pyStripWs ((pySplit line "PROJECT_DESCRIPTION:").getD 1 "")) }
  else if pyStartsWith line "SEARCH_QUERY:" then
    { acc with search_query :=
        stripChar dquote (pyStripWs ((pySplit line "SEARCH_QUERY:").getD 1 "")) }
  else if pyStartsWith line "FILTERS:" then
    match parseFilters (pyStripWs ((pySplit line "FILTERS:").getD 1 "")) with
    | some f => { acc with filters := f }
    | none => acc
  else if pyStartsWith line "CONTEXT:" then
    match parseContext (pyStripWs ((pySplit line "CONTEXT:").getD 1 "")) with
    | some c => { acc with user_context := c }
    | none => acc
  else acc

/-- The full planning-response parse with its source defaults
(search query defaults to the user prompt, filters and context to empty,
project name to "New Project", description to the first 100 characters of
the prompt). -/
def parsePlan (parseFilters : String → Option MongoFilter)
    (parseContext : String → Option UserContext)
    (user_prompt content : String) : PlanParse :=
  (pySplit content "\n").foldl (parsePlanLine parseFilters parseContext)
    { project_name := "New Project"
      project_description := pyTake user_prompt 100
      search_query := user_prompt
      filters := []
      user_context := {} }

/-- One entry of the `agent_states` streaming log.  The human-readable
message text of the source entries is not modelled; agent and status are. -/
structure AgentStateEntry where
  agent : String
  status : String
deriving DecidableEq

/-- The `SupervisorState` TypedDict of multi_agent_system.py (lines 24-50).
The `metadata` dict is represented by its two written keys. -/
structure SupervisorState where
  messages : List String
  user_prompt : String
  user_id : String
  project_id : String
  thread_id : String
  user_context : UserContext
  next_agent : Option String
  agent_history : List String
  recommendations : List RecRecord
  current_recommendation_id : Option Nat
  final_response : String
  suggested_project_name : Option String
  suggested_project_description : Option String
  agent_states : List AgentStateEntry
deriving DecidableEq

/-- Appends one streaming log entry to the state. -/
def pushAgentState (st : SupervisorState) (agent status : String) : SupervisorState :=
  { st with agent_states := st.agent_states ++ [{ agent := agent, status := status }] }

/-- Oracle outcomes of the external calls one `RecommendationAgent.run`
execution can make: the four LLM chat calls (an `.error` is a raised API
exception, which the agent does not catch) and the two semantic-search
call outcomes. -/
structure RecOracle where
  plan : Except String String
  parseFilters : String → Option MongoFilter
  parseContext : String → Option UserContext
  search1 : SearchCall
  search2 : SearchCall
  clarify : Except String String
  encourage : Except String String
  final : Except String String

/-- The reflect-and-create loop of `RecommendationAgent.run`
(multi_agent_system.py lines 233-255): reflect on each candidate, keep those
scoring above 0.3 and upsert a recommendation for each. -/
def reflectCreateLoop (project_id user_id : String) (ctx : UserContext) :
    List Activity → List RecRecord × Db → List RecRecord × Db
  | [], acc => acc
  | activity :: rest, (recs, db) =>
      let out := reflect_and_transform activity ctx
      if out.reflection.score > 3/10 then
        let reason :=
          if !out.reflection.matchedCriteria.isEmpty then
            "Great fit! " ++ String.intercalate ", " out.reflection.matchedCriteria
          else "This is a popular activity that might interest you"
        let res := create_recommendation db project_id user_id activity
          reason out.reflection.score
        reflectCreateLoop project_id user_id ctx rest (recs ++ [res.1], res.2)
      else
        reflectCreateLoop project_id user_id ctx rest (recs, db)

/-- The tail of `RecommendationAgent.run` after a non-empty activity list was
found (multi_agent_system.py lines 225-340): reflect on the top 3, create
recommendations, generate the response, guard the history against duplicate
execution and decide the routing. -/
def recommendationFinish (o : RecOracle) (st : SupervisorState) (db : Db)
    (activities : List Activity) (pp : PlanParse) :
    Except String SupervisorState × Db :=
  let st := pushAgentState st "recommendation" "reflecting"
  let loopRes :=
    reflectCreateLoop st.project_id st.user_id pp.user_context
      (activities.take 3) ([], db)
  let recommendations := loopRes.1
  let db := loopRes.2
  let st := { st with recommendations := recommendations
                      user_context := pp.user_context }
  let st := pushAgentState st "recommendation" "adding"
  let st := pushAgentState st "recommendation" "completed"
  if recommendations.isEmpty then
    match o.encourage with
    | .error e => (.error e, db)
    | .ok resp =>
        (.ok { st with final_response := resp
                       next_agent := none
                       agent_history := st.agent_history ++ ["recommendation"] }, db)
  else
    match o.final with
    | .error e => (.error e, db)
    | .ok resp =>
        let st := { st with final_response := resp }
        if "recommendation" ∈ st.agent_history then
          (.ok { st with next_agent := none }, db)
        else
          let history := st.agent_history ++ ["recommendation"]
          let st := { st with agent_history := history }
          if !recommendations.isEmpty then
            if "itinerary_builder" ∈ history then
              (.ok { st with next_agent := none }, db)
            else
              (.ok { st with next_agent := some "itinerary_builder"
                             current_recommendation_id :=
                               recommendations.head?.map (·.rid) }, db)
          else
            (.ok { st with next_agent := none }, db)

/-- `RecommendationAgent.run` (multi_agent_system.py lines 63-340):
Plan (LLM parse) → Search (with one broadened fallback retry) → Reflect →
Add.  When both searches come back empty, the clarifying response is
generated and the agent routes to terminal without touching
`agent_history`. -/
def recommendationRun (o : RecOracle) (st : SupervisorState) (db : Db) :
    Except String SupervisorState × Db :=
  let st := pushAgentState st "recommendation" "planning"
  match o.plan with
  | .error e => (.error e, db)
  | .ok content =>
    let pp := parsePlan o.parseFilters o.parseContext st.user_prompt content
    let st := { st with suggested_project_name := some pp.project_name
                        suggested_project_description := some pp.project_description }
    let st := pushAgentState st "recommendation" "searching"
    let activities := search_activities db.activities o.search1 pp.search_query
      (if pp.filters.isEmpty then none else some pp.filters) 5
    let st := pushAgentState st "recommendation" "searched"
    if activities.isEmpty then
      let st := pushAgentState st "recommendation" "no_results"
      let activities2 := search_activities db.activities o.search2 st.user_prompt none 10
      if activities2.isEmpty then
        match o.clarify with
        | .error e => (.error e, db)
        | .ok resp =>
            (.ok { st with final_response := resp, next_agent := none }, db)
      else
        let st := pushAgentState st "recommendation" "searched"
        recommendationFinish o st db activities2 pp
    else
      recommendationFinish o st db activities pp

/-- Oracle outcomes of the external calls one `ItineraryBuilderAgent.run`
execution can make: the itinerary-rewrite LLM call (uncaught on error) and
the `json.loads` of the extracted JSON block (`none` = the caught parse
failure). -/
structure ItinOracle where
  rewrite : Except String String
  parseItinerary : String → Option (List ItineraryItem)

/-- The fenced-JSON extraction of `ItineraryBuilderAgent.run`
(multi_agent_system.py lines 408-414). -/
def extractJsonBlock (content : String) : String :=
  if pyInStr "```json" content then
    pyStripWs (((pySplit ((pySplit content "```json").getD 1 "") "```").getD 0 ""))
  else if pyInStr "```" content then
    pyStripWs (((pySplit ((pySplit content "```").getD 1 "") "```").getD 0 ""))
  else content

/-- `ItineraryBuilderAgent.run` (multi_agent_system.py lines 346-440):
no-op routing to terminal without a current recommendation; otherwise
retrieve (uncaught on failure), reflect, optionally rewrite the itinerary
(parse or update failures are caught and swallowed), then guard the history
and route to offerings. -/
def itineraryRun (o : ItinOracle) (st : SupervisorState) (db : Db) :
    Except String SupervisorState × Db :=
  let st := pushAgentState st "itinerary_builder" "started"
  match st.current_recommendation_id with
  | none => (.ok { st with next_agent := none }, db)
  | some rid =>
    match retrieve_recommendation_details db rid st.user_id with
    | .error e => (.error e, db)
    | .ok rec =>
      let current_itinerary := rec.data.itinerary
      let reflection := reflect_on_itinerary current_itinerary st.user_context
      let step : Except String Db :=
        if !reflection.isGoodFit && !reflection.suggestions.isEmpty then
          match o.rewrite with
          | .error e => .error e
          | .ok content =>
            match o.parseItinerary (extractJsonBlock content) with
            | some new_itinerary =>
                match update_recommendation_itinerary db rid st.user_id new_itinerary with
                | .ok db' => .ok db'
                | .error _ => .ok db
            | none => .ok db
        else .ok db
      match step with
      | .error e => (.error e, db)
      | .ok db' =>
        let history :=
          if "itinerary_builder" ∈ st.agent_history then st.agent_history
          else st.agent_history ++ ["itinerary_builder"]
        let st := { st with agent_history := history }
        if "offerings" ∈ history then (.ok { st with next_agent := none }, db')
        else (.ok { st with next_agent := some "offerings" }, db')

/-- The needed-offerings loop of `OfferingsAgent.run` (multi_agent_system.py
lines 484-490): for each unmet need, search offerings and append the first
match when its id is not already present. -/
def neededLoop (db : Db) : List String → List String → List String
  | [], current => current
  | need :: rest, current =>
      match search_offerings db need 3 with
      | [] => neededLoop db rest current
      | offering :: _ =>
          let offering_id := offering.oid
          neededLoop db rest
            (if offering_id ∈ current then current else current ++ [offering_id])

/-- `OfferingsAgent.run` (multi_agent_system.py lines 453-508): no-op
routing to terminal without a current recommendation; otherwise retrieve
(uncaught on failure), reflect on offerings, persist additions (uncaught on
failure), guard the history and always route to terminal. -/
def offeringsRun (st : SupervisorState) (db : Db) :
    Except String SupervisorState × Db :=
  let st := pushAgentState st "offerings" "started"
  match st.current_recommendation_id with
  | none => (.ok { st with next_agent := none }, db)
  | some rid =>
    match retrieve_recommendation_details db rid st.user_id with
    | .error e => (.error e, db)
    | .ok rec =>
      let current_offerings := rec.data.offeringIds
      let reflection := reflect_on_offerings current_offerings st.user_context
      let step : Except String Db :=
        if !reflection.areSufficient && !reflection.needed.isEmpty then
          let new_offerings := neededLoop db reflection.needed current_offerings
          update_recommendation_offerings db rid st.user_id new_offerings
        else .ok db
      match step with
      | .error e => (.error e, db)
      | .ok db' =>
        let history :=
          if "offerings" ∈ st.agent_history then st.agent_history
          else st.agent_history ++ ["offerings"]
        (.ok { st with agent_history := history, next_agent := none }, db')

/-- The conditional-edge router of the supervisor graph
(multi_agent_system.py lines 547-554); `none` is `END`. -/
def route_next (st : SupervisorState) : Option String :=
  match st.next_agent with
  | some "itinerary_builder" => some "itinerary_builder"
  | some "offerings" => some "offerings"
  | _ => none

/-- The oracles of one full graph execution. -/
structure GraphOracle where
  recommendation : RecOracle
  itin : ItinOracle

/-- One execution of the compiled supervisor graph (multi_agent_system.py
lines 534-578): entry at recommendation, conditional edges to
itinerary_builder / offerings / END, offerings always ending the run.  The
database is threaded through and preserved when an agent raises. -/
def runGraph (o : GraphOracle) (st : SupervisorState) (db : Db) :
    Except String SupervisorState × Db :=
  match recommendationRun o.recommendation st db with
  | (.error e, db1) => (.error e, db1)
  | (.ok s1, db1) =>
    match route_next s1 with
    | some "itinerary_builder" =>
      (match itineraryRun o.itin s1 db1 with
       | (.error e, db2) => (.error e, db2)
       | (.ok s2, db2) =>
         match route_next s2 with
         | some "offerings" => offeringsRun s2 db2
         | _ => (.ok s2, db2))
    | some "offerings" => offeringsRun s1 db1
    | _ => (.ok s1, db1)

/-- The fresh per-run state literal of `SupervisorAgent.run`
(multi_agent_system.py lines 596-610): every collection starts empty. -/
def initialState (prompt user_id project_id thread_id : String) : SupervisorState :=
  { messages := [prompt]
    user_prompt := prompt
    user_id := user_id
    project_id := project_id
    thread_id := thread_id
    user_context := {}
    next_agent := none
    agent_history := []
    recommendations := []
    current_recommendation_id := none
    final_response := ""
    suggested_project_name := none
    suggested_project_description := none
    agent_states := [] }

/-- The result dict returned by the supervisor `run` entry points.  The
success dict carries the recommendation count in metadata; the degraded dict
carries only the error string there (`errorDetail`). -/
structure RunResult where
  message : String
  recommendations : List RecRecord
  agentsUsed : List String
  threadId : String
  projectId : String
  projectName : Option String
  projectDescription : Option String
  errorDetail : Option String
  recommendationCount : Option Nat
deriving DecidableEq

/-- The fixed degraded-mode message of both supervisor catch blocks. -/
def apologyMessage : String :=
  "I encountered an error processing your request. Please try again."

/-- `SupervisorAgent.run` (multi_agent_system.py lines 580-651).
`fresh_uuid` is the oracle value of the `str(uuid.uuid4())` call of this
invocation; the source overwrites any provided `thread_id` with it
unconditionally (line 591).  Any exception from the graph is caught and
turned into the fixed apology result with the error detail only in
metadata. -/
def SupervisorAgent_run (o : GraphOracle) (fresh_uuid : String)
    (prompt user_id project_id : String) (thread_id_arg : Option String)
    (db : Db) : RunResult × Db :=
  let thread_id := fresh_uuid
  let st0 := initialState prompt user_id project_id thread_id
  match runGraph o st0 db with
  | (.ok fs, db') =>
    ({ message := fs.final_response
       recommendations := fs.recommendations
       agentsUsed := fs.agent_history
       threadId := thread_id
       projectId := project_id
       projectName := fs.suggested_project_name
       projectDescription := fs.suggested_project_description
       errorDetail := none
       recommendationCount := some fs.recommendations.length }, db')
  | (.error e, db') =>
    ({ message := apologyMessage
       recommendations := []
       agentsUsed := []
       threadId := thread_id
       projectId := project_id
       projectName := none
       projectDescription := none
       errorDetail := some e
       recommendationCount := none }, db')

/-- Decidable equality for call outcomes. -/
def exceptEqDec {ε α : Type} [DecidableEq ε] [DecidableEq α] :
    DecidableEq (Except ε α) := fun x y =>
  match x, y with
  | .ok a, .ok b =>
      if h : a = b then .isTrue (congrArg Except.ok h)
      else .isFalse (fun hh => h (Except.ok.inj hh))
  | .error a, .error b =>
      if h : a = b then .isTrue (congrArg Except.error h)
      else .isFalse (fun hh => h (Except.error.inj hh))
  | .ok _, .error _ => .isFalse (fun hh => Except.noConfusion hh)
  | .error _, .ok _ => .isFalse (fun hh => Except.noConfusion hh)

instance {ε α : Type} [DecidableEq ε] [DecidableEq α] : DecidableEq (Except ε α) :=
  exceptEqDec

/-- One tool call requested by an LLM response in the tool-calling loop of
`RecommendationAgentWithTools.run`, together with the oracle outcome of
executing it (`.error` = the tool raised; a tool that merely returns an error
STRING is an `.ok`). -/
structure ToolCallEv where
  name : String
  args : String
  result : Except String String
deriving DecidableEq

/-- One LLM response in the tool-calling loop: content text plus requested
tool calls. -/
structure LlmTurn where
  content : String
  tool_calls : List ToolCallEv
deriving DecidableEq

/-- Oracle of one `RecommendationAgentWithTools.run` execution: the
project-name LLM call (caught on error) and the loop LLM calls indexed by
iteration number (an `.error` is a raised API exception, uncaught in the
loop). -/
structure RefOracle where
  nameGen : Except String String
  turns : Nat → Except String LlmTurn

/-- The mutable data of the tool-calling loop (multi_agent_system_refactored.py
lines 217-375): the message list (modelled by the appended content strings),
the created-recommendation argument list, the streaming log and the final
response under construction. -/
structure LoopState where
  msgs : List String
  recsCreated : List String
  agent_states : List AgentStateEntry
  final_response : String
deriving DecidableEq

/-- How the tool-calling loop ended: the LLM returned no tool calls, the
4-recommendation cap fired with no final response yet, or the 10-iteration
fuel ran out. -/
inductive LoopExit where
  | noToolCalls
  | cappedFallback
  | fuelOut
deriving DecidableEq

/-- The per-tool streaming log entry of the loop (multi_agent_system_refactored.py
lines 258-302); tools outside the four known ones log nothing. -/
def toolAgentState (ls : LoopState) (name : String) : LoopState :=
  if name == "search_activities" then
    { ls with agent_states := ls.agent_states ++ [{ agent := "recommendation", status := "searching" }] }
  else if name == "reflect_on_activity" then
    { ls with agent_states := ls.agent_states ++ [{ agent := "recommendation", status := "reflecting" }] }
  else if name == "create_recommendation" then
    { ls with agent_states := ls.agent_states ++ [{ agent := "recommendation", status := "adding" }] }
  else if name == "generate_conversational_response" then
    { ls with agent_states := ls.agent_states ++ [{ agent := "recommendation", status := "responding" }] }
  else ls

/-- The names in the `tool_map` of `RecommendationAgentWithTools`
(recommendation_tools.py lines 304-309). -/
def knownToolNames : List String :=
  ["search_activities", "create_recommendation", "reflect_on_activity",
   "generate_conversational_response"]

/-- The templated stop/guide/hint messages injected around the
4-recommendation cap (multi_agent_system_refactored.py lines 277, 318, 329). -/
def stopMessage : String :=
  "I have created 4 recommendations. That is the maximum number of recommendations I can add to this project."

/-- The guide message appended right after the cap is reached. -/
def guideMessage : String :=
  "I have created 4 recommendations. Now I should use the generate_conversational_response tool."

/-- The hint message appended right after the guide message. -/
def hintMessage : String :=
  "Now generate a conversational response using the generate_conversational_response tool."

/-- The `for tool_call in response.tool_calls` body of the loop
(multi_agent_system_refactored.py lines 252-365): the pre-execution cap check
breaks with a stop message; a successful `create_recommendation` is tracked
and, at the cap, appends the guide and hint messages and breaks; a successful
`generate_conversational_response` becomes the final response; tool errors
are caught and appended as error messages. -/
def execToolCalls (ls : LoopState) : List ToolCallEv → LoopState
  | [] => ls
  | tc :: rest =>
    if tc.name == "create_recommendation" && ls.recsCreated.length ≥ 4 then
      { ls with msgs := ls.msgs ++ [stopMessage] }
    else
      let ls := toolAgentState ls tc.name
      if tc.name ∈ knownToolNames then
        match tc.result with
        | .error e =>
            execToolCalls
              { ls with msgs := ls.msgs ++ ["Error executing " ++ tc.name ++ ": " ++ e] }
              rest
        | .ok res =>
          let ls :=
            if tc.name == "create_recommendation" then
              let ls := { ls with recsCreated := ls.recsCreated ++ [tc.args] }
              if ls.recsCreated.length ≥ 4 then
                { ls with msgs := ls.msgs ++ [guideMessage, hintMessage] }
              else ls
            else ls
          let ls :=
            if tc.name == "generate_conversational_response" then
              { ls with final_response := res }
            else ls
          let ls := { ls with msgs := ls.msgs ++ [res] }
          if tc.name == "create_recommendation" && ls.recsCreated.length ≥ 4 then ls
          else execToolCalls ls rest
      else
        execToolCalls
          { ls with msgs := ls.msgs ++ ["Tool " ++ tc.name ++ " not found"] }
          rest

/-- The fallback final responses of the no-tool-calls exit
(multi_agent_system_refactored.py lines 244-248). -/
def fallbackResponse (n : Nat) : String :=
  if n > 0 then
    "I have added " ++ toString n ++ " great activity recommendations to your project! Check them out - they are all tailored to what you are looking for."
  else
    "I have added some great activity recommendations to your project!"

/-- The fallback final response of the capped exit
(multi_agent_system_refactored.py line 374). -/
def cappedFallbackResponse : String :=
  "I have added 4 great activity recommendations to your project! Check them out - they are all tailored to what you are looking for."

/-- The `while iteration < max_iterations` tool-calling loop
(multi_agent_system_refactored.py lines 222-375), with `fuel` iterations
remaining and `iter` iterations already run.  Returns the loop data, the
exit kind and the number of iterations run; an LLM error propagates. -/
def toolLoop (o : RefOracle) : Nat → Nat → LoopState →
    Except String (LoopState × LoopExit × Nat)
  | 0, iter, ls => .ok (ls, .fuelOut, iter)
  | fuel + 1, iter, ls =>
    let iter := iter + 1
    match o.turns iter with
    | .error e => .error e
    | .ok turn =>
      let ls := { ls with msgs := ls.msgs ++ [turn.content] }
      if turn.tool_calls.isEmpty then
        let ls :=
          if turn.content != "" then { ls with final_response := turn.content }
          else if ls.final_response == "" then
            { ls with final_response := fallbackResponse ls.recsCreated.length }
          else ls
        .ok (ls, .noToolCalls, iter)
      else
        let ls := execToolCalls ls turn.tool_calls
        if ls.recsCreated.length ≥ 4 && ls.final_response == "" then
          .ok ({ ls with final_response := cappedFallbackResponse }, .cappedFallback, iter)
        else
          toolLoop o fuel iter ls

/-- The `AgentState` TypedDict of multi_agent_system_refactored.py (lines
30-58); `recommendations` holds the tracked `tool_args` of the created
recommendations, as in the source. -/
structure RefAgentState where
  user_prompt : String
  user_id : String
  project_id : String
  thread_id : String
  user_context : UserContext
  agent_history : List String
  recommendations : List String
  current_recommendation_id : Option Nat
  final_response : String
  suggested_project_name : Option String
  suggested_project_description : Option String
  agent_states : List AgentStateEntry
deriving DecidableEq

/-- Python `str.title()` restricted to whitespace-separated words:
first letter upper-cased, the rest lower-cased. -/
def pyTitleWord (w : String) : String :=
  match w.toList with
  | [] => ""
  | c :: cs => String.mk (pyUpperChar c :: cs.map pyLowerChar)

/-- The fallback project name of the refactored recommendation agent
(multi_agent_system_refactored.py lines 164-169): the first six prompt
words title-cased, truncated to 47 characters plus an ellipsis. -/
def fallbackProjectName (prompt default_name : String) : String :=
  let prompt_words := (pyWords prompt).take 6
  if prompt_words.length ≥ 3 then
    let name := pyTitleWord <$> prompt_words |> String.intercalate " "
    if name.length > 50 then pyTake name 47 ++ "..." else name
  else default_name

/-- The PROJECT_NAME / PROJECT_DESCRIPTION line parse of the refactored
recommendation agent (multi_agent_system_refactored.py lines 147-152):
values are stripped of whitespace, double quotes, then single quotes. -/
def parseNameDesc (content : String) (name0 desc0 : String) : String × String :=
  (pySplit content "\n").foldl
    (fun (acc : String × String) line =>
      if pyStartsWith line "PROJECT_NAME:" then
        (stripChar squote (stripChar dquote (pyStripWs ((pySplit line "PROJECT_NAME:").getD 1 ""))), acc.2)
      else if pyStartsWith line "PROJECT_DESCRIPTION:" then
        (acc.1, stripChar squote (stripChar dquote (pyStripWs ((pySplit line "PROJECT_DESCRIPTION:").getD 1 ""))))
      else acc)
    (name0, desc0)

/-- `RecommendationAgentWithTools.run` (multi_agent_system_refactored.py
lines 82-399): duplicate-execution guard, project-name generation (errors
caught, with the title-cased fallback), then the bounded tool-calling loop,
the completion log entry and the history update. -/
def RecommendationAgentWithTools_run (o : RefOracle) (st : RefAgentState) :
    Except String RefAgentState :=
  if "recommendation" ∈ st.agent_history then .ok st
  else
    let agent_states := st.agent_states ++
      [{ agent := "recommendation", status := "planning" }]
    let project_name := "Your Activity Project"
    let project_description := pyTake st.user_prompt 100
    let (project_name, project_description) :=
      match o.nameGen with
      | .ok content => parseNameDesc content project_name project_description
      | .error _ => (fallbackProjectName st.user_prompt project_name, project_description)
    let st := { st with
      suggested_project_name := some project_name
      suggested_project_description := some project_description }
    let ls0 : LoopState :=
      { msgs := ["User request: " ++ st.user_prompt]
        recsCreated := []
        agent_states := agent_states
        final_response := st.final_response }
    match toolLoop o 10 0 ls0 with
    | .error e => .error e
    | .ok (ls, _exit, _iters) =>
      let agent_states := ls.agent_states ++
        [{ agent := "recommendation", status := "completed" }]
      let history :=
        if "recommendation" ∈ st.agent_history then st.agent_history
        else st.agent_history ++ ["recommendation"]
      .ok { st with
        agent_states := agent_states
        agent_history := history
        final_response := ls.final_response
        recommendations := ls.recsCreated }

/-- The refactored `ItineraryBuilderAgent.run`
(multi_agent_system_refactored.py lines 405-435): duplicate guard, one log
entry, history update, nothing else. -/
def refItineraryRun (st : RefAgentState) : RefAgentState :=
  if "itinerary_builder" ∈ st.agent_history then st
  else
    { st with
      agent_states := st.agent_states ++ [{ agent := "itinerary_builder", status := "started" }]
      agent_history := st.agent_history ++ ["itinerary_builder"] }

/-- The refactored `OfferingsAgent.run`
(multi_agent_system_refactored.py lines 441-471): duplicate guard, one log
entry, history update, nothing else. -/
def refOfferingsRun (st : RefAgentState) : RefAgentState :=
  if "offerings" ∈ st.agent_history then st
  else
    { st with
      agent_states := st.agent_states ++ [{ agent := "offerings", status := "started" }]
      agent_history := st.agent_history ++ ["offerings"] }

/-- The linear refactored graph (multi_agent_system_refactored.py lines
500-523): recommendation → itinerary_builder → offerings → END. -/
def refRunGraph (o : RefOracle) (st : RefAgentState) : Except String RefAgentState :=
  match RecommendationAgentWithTools_run o st with
  | .error e => .error e
  | .ok s1 => .ok (refOfferingsRun (refItineraryRun s1))

/-- The fresh per-run state literal of `SupervisorAgentRefactored.run`
(multi_agent_system_refactored.py lines 679-693). -/
def refInitialState (prompt user_id project_id thread_id : String) : RefAgentState :=
  { user_prompt := prompt
    user_id := user_id
    project_id := project_id
    thread_id := thread_id
    user_context := {}
    agent_history := []
    recommendations := []
    current_recommendation_id := none
    final_response := ""
    suggested_project_name := none
    suggested_project_description := none
    agent_states := [] }

/-- The result dict of `SupervisorAgentRefactored.run`. -/
structure RefRunResult where
  message : String
  recommendations : List String
  agentsUsed : List String
  threadId : String
  projectId : String
  projectName : Option String
  projectDescription : Option String
  errorDetail : Option String
  recommendationCount : Option Nat
deriving DecidableEq

/-- `SupervisorAgentRefactored.run` (multi_agent_system_refactored.py lines
659-730).  Unlike the original supervisor, the fresh `str(uuid.uuid4())`
value is used only when the provided `thread_id` is falsy (lines 669-670);
a provided non-empty `thread_id` is reused.  The catch block mirrors the
original apology result. -/
def SupervisorAgentRefactored_run (o : RefOracle) (fresh_uuid : String)
    (prompt user_id project_id : String) (thread_id_arg : Option String) :
    RefRunResult :=
  let thread_id :=
    match thread_id_arg with
    | some t => if t == "" then fresh_uuid else t
    | none => fresh_uuid
  let st0 := refInitialState prompt user_id project_id thread_id
  match refRunGraph o st0 with
  | .ok fs =>
    { message := fs.final_response
      recommendations := fs.recommendations
      agentsUsed := fs.agent_history
      threadId := thread_id
      projectId := project_id
      projectName := some "Your Activity Project"
      projectDescription := some (pyTake prompt 100)
      errorDetail := none
      recommendationCount := some fs.recommendations.length }
  | .error e =>
    { message := apologyMessage
      recommendations := []
      agentsUsed := []
      threadId := thread_id
      projectId := project_id
      projectName := none
      projectDescription := none
      errorDetail := some e
      recommendationCount := none }

/-! ### Concrete instances used by witnesses and counterexamples -/

/-- A sample activity document. -/
def sampleActivity : Activity :=
  { oid := "act-1"
    title := "Team Building in Oakland"
    city := "Oakland"
    minParticipants := some 5
    maxParticipants := some 20
    price := some 50 }

/-- A search-call outcome where both external calls fail. -/
def failingSearchCall : SearchCall :=
  { api := .error "embedding service down", agg := .error "pipeline down" }

/-- A recommendation-agent oracle whose searches always hit the lexical
fallback (failing embedding API) and whose LLM calls all succeed. -/
def mainRecOracle : RecOracle :=
  { plan := .ok "PLAN"
    parseFilters := fun _ => none
    parseContext := fun _ => none
    search1 := failingSearchCall
    search2 := failingSearchCall
    clarify := .ok "Could you tell me more about what you are looking for?"
    encourage := .ok "Maybe share a bit more detail about your preferences?"
    final := .ok "Here are some recommendations!" }

/-- An itinerary oracle whose rewrite parse always fails (and is swallowed). -/
def sampleItinOracle : ItinOracle :=
  { rewrite := .ok "no json here", parseItinerary := fun _ => none }

/-- The default graph oracle for concrete runs. -/
def mainOracle : GraphOracle :=
  { recommendation := mainRecOracle, itin := sampleItinOracle }

/-- A graph oracle whose very first LLM call raises. -/
def failingOracle : GraphOracle :=
  { recommendation := { mainRecOracle with plan := .error "llm timeout" }
    itin := sampleItinOracle }

/-- A store holding one activity and one project. -/
def sampleDb : Db :=
  { activities := [sampleActivity], projects := [{ pid := "proj-1" }] }

/-- A user context matching all three soft constraints of `sampleActivity`. -/
def fullMatchCtx : UserContext :=
  { groupSize := some "15", preferredLocation := some "Oakland", budget := some "100" }

/-- An activity in Reno, for the location counterexample. -/
def renoActivity : Activity := { oid := "act-2", city := "Reno" }

/-- A context stating a preferred location that `renoActivity` violates. -/
def oaklandCtx : UserContext := { preferredLocation := some "Oakland" }

/-- A loop LLM turn carrying only a search tool call and no content. -/
def searchTurn : LlmTurn :=
  { content := ""
    tool_calls := [{ name := "search_activities", args := "team building",
                     result := .ok "Found 2 activities" }] }

/-- A loop LLM turn calling the conversational-response tool. -/
def convTurn : LlmTurn :=
  { content := ""
    tool_calls := [{ name := "generate_conversational_response", args := "summary",
                     result := .ok "Here are your picks!" }] }

/-- A loop LLM turn creating one recommendation. -/
def createTurn : LlmTurn :=
  { content := ""
    tool_calls := [{ name := "create_recommendation", args := "rec-args",
                     result := .ok "Created recommendation" }] }

/-- A loop LLM turn with closing content and no tool calls. -/
def doneTurn : LlmTurn := { content := "All done!", tool_calls := [] }

/-- A refactored-agent oracle that keeps requesting searches forever. -/
def busyRefOracle : RefOracle :=
  { nameGen := .error "name generation down", turns := fun _ => .ok searchTurn }

/-- A refactored-agent oracle that answers its final response first, then
creates four recommendations, then keeps searching. -/
def capAfterResponseOracle : RefOracle :=
  { nameGen := .error "name generation down"
    turns := fun i =>
      if i == 1 then .ok convTurn
      else if i ≤ 5 then .ok createTurn
      else .ok searchTurn }

/-- A refactored-agent oracle that closes immediately. -/
def simpleRefOracle : RefOracle :=
  { nameGen := .error "name generation down", turns := fun _ => .ok doneTurn }

/-- A refactored-agent oracle whose first loop LLM call raises. -/
def failingRefOracle : RefOracle :=
  { nameGen := .ok "PROJECT_NAME: X", turns := fun _ => .error "llm down" }

/-- An empty loop state, as built at the top of the tool-calling loop. -/
def emptyLoopState : LoopState :=
  { msgs := [], recsCreated := [], agent_states := [], final_response := "" }

/-- A fresh refactored agent state for a short prompt. -/
def sampleRefState : RefAgentState := refInitialState "hi" "user-1" "proj-1" "t-1"

/-! ### Helper lemmas -/

theorem updateFirst_length (p : α → Bool) (f : α → α) (l : List α) :
    (updateFirst p f l).length = l.length := by
  induction l with
  | nil => rfl
  | cons x xs ih =>
      simp only [updateFirst]
      by_cases hp : p x <;> simp [hp, ih]

theorem updateFirst_map {β : Type} (g : α → β) (p : α → Bool) (f : α → α)
    (l : List α) (h : ∀ x ∈ l, p x → g (f x) = g x) :
    (updateFirst p f l).map g = l.map g := by
  induction l with
  | nil => rfl
  | cons x xs ih =>
      simp only [updateFirst]
      by_cases hp : p x
      · rw [if_pos hp]
        simp [h x (List.mem_cons_self x xs) hp]
      · rw [if_neg hp]
        simp only [List.map_cons]
        rw [ih (fun y hy hpy => h y (List.mem_cons_of_mem x hy) hpy)]

theorem mem_updateFirst {p : α → Bool} {f : α → α} {l : List α} {r : α}
    (h : r ∈ updateFirst p f l) : r ∈ l ∨ ∃ x ∈ l, p x ∧ r = f x := by
  induction l with
  | nil => simp [updateFirst] at h
  | cons x xs ih =>
      simp only [updateFirst] at h
      by_cases hp : p x
      · rw [if_pos hp] at h
        rcases List.mem_cons.mp h with h | h
        · exact .inr ⟨x, List.mem_cons_self x xs, hp, h⟩
        · exact .inl (List.mem_cons_of_mem x h)
      · rw [if_neg hp] at h
        rcases List.mem_cons.mp h with h | h
        · exact .inl (h ▸ List.mem_cons_self x xs)
        · rcases ih h with h' | ⟨y, hy, hpy, hr⟩
          · exact .inl (List.mem_cons_of_mem x h')
          · exact .inr ⟨y, List.mem_cons_of_mem x hy, hpy, hr⟩

theorem updateFirst_append_of_none (p : α → Bool) (f : α → α) (l₁ l₂ : List α)
    (h : ∀ x ∈ l₁, ¬ p x) :
    updateFirst p f (l₁ ++ l₂) = l₁ ++ updateFirst p f l₂ := by
  induction l₁ with
  | nil => rfl
  | cons x xs ih =>
      simp only [List.cons_append, updateFirst, List.append_eq]
      rw [if_neg (h x (List.mem_cons_self x xs))]
      rw [ih (fun y hy => h y (List.mem_cons_of_mem x hy))]

theorem groupStep_eq (a : Activity) (c : UserContext) (r : Reflection) :
    groupStep a c r =
      { r with matchedCriteria := r.matchedCriteria ++ groupMatchedList a c
               concerns := r.concerns ++ groupConcernList a c
               score := r.score + groupContrib a c } := by
  by_cases h : truthyStr c.groupSize
  · cases hp : pyInt (c.groupSize.getD "") with
    | none => simp [groupStep, groupContrib, groupMatchedList, groupConcernList, h, hp]
    | some g =>
        by_cases hg : a.minParticipants.getD 0 ≤ g ∧ g ≤ a.maxParticipants.getD 999
        · simp only [groupStep, groupContrib, groupMatchedList, groupConcernList,
            h, hp, if_true, if_pos hg]
          simp
        · simp only [groupStep, groupContrib, groupMatchedList, groupConcernList,
            h, hp, if_true, if_neg hg]
          simp
          ring
  · simp [groupStep, groupContrib, groupMatchedList, groupConcernList, h]

theorem locationStep_eq (a : Activity) (c : UserContext) (r : Reflection) :
    locationStep a c r =
      { r with matchedCriteria := r.matchedCriteria ++ locMatchedList a c
               score := r.score + locContrib a c } := by
  by_cases h : truthyStr c.preferredLocation
  · by_cases hm : pyInStr (pyLower (c.preferredLocation.getD "")) (pyLower a.city)
    all_goals simp [locationStep, locContrib, locMatchedList, h, hm]
  · simp [locationStep, locContrib, locMatchedList, h]

theorem budgetStep_eq (a : Activity) (c : UserContext) (r : Reflection) :
    budgetStep a c r =
      { r with matchedCriteria := r.matchedCriteria ++ budgetMatchedList a c
               concerns := r.concerns ++ budgetConcernList a c
               score := r.score + budgetContrib a c } := by
  by_cases h : truthyStr c.budget
  · cases hp : pyFloat (c.budget.getD "") with
    | none => simp [budgetStep, budgetContrib, budgetMatchedList, budgetConcernList, h, hp]
    | some b =>
        by_cases hb : a.price.getD 0 ≤ b
        · simp only [budgetStep, budgetContrib, budgetMatchedList, budgetConcernList,
            h, hp, if_true, if_pos hb]
          simp
        · simp only [budgetStep, budgetContrib, budgetMatchedList, budgetConcernList,
            h, hp, if_true, if_neg hb]
          simp
          ring
  · simp [budgetStep, budgetContrib, budgetMatchedList, budgetConcernList, h]

/-- Full characterization of the reflection: baseline 0.8, one independent
contribution per soft constraint, then the clamp. -/
theorem reflect_and_transform_spec (a : Activity) (c : UserContext) :
    reflect_and_transform a c =
      { activity := a
        reflection :=
          { isFit := true
            matchedCriteria :=
              groupMatchedList a c ++ locMatchedList a c ++ budgetMatchedList a c
            concerns := groupConcernList a c ++ budgetConcernList a c
            score := max 0 (min 1
              (4/5 + groupContrib a c + locContrib a c + budgetContrib a c)) } } := by
  unfold reflect_and_transform
  simp only [groupStep_eq, locationStep_eq, budgetStep_eq]
  simp [List.append_assoc, add_assoc]

theorem clamp01_nonneg (s : ℚ) : 0 ≤ max 0 (min 1 s) := le_max_left 0 _

theorem clamp01_le_one (s : ℚ) : max 0 (min 1 s) ≤ 1 :=
  max_le (by norm_num) (min_le_left 1 s)

/-! ### Claim theorems -/

/-- C6 (amended): reflect starts at baseline 0.8 and adds, independently per
constraint, +0.1 with a matchedCriteria entry for a stated-and-satisfied
group-size, location or budget constraint, and -0.2 with a concerns entry for
a stated-and-violated group-size or budget constraint; a stated location that
does NOT match contributes neither a penalty nor a concerns entry (the source
has no else branch there); unparseable or missing values contribute nothing;
the final score is the clamped sum. -/
theorem reflect_baseline_and_contributions (a : Activity) (c : UserContext) :
    reflect_and_transform a c =
      { activity := a
        reflection :=
          { isFit := true
            matchedCriteria :=
              groupMatchedList a c ++ locMatchedList a c ++ budgetMatchedList a c
            concerns := groupConcernList a c ++ budgetConcernList a c
            score := max 0 (min 1
              (4/5 + groupContrib a c + locContrib a c + budgetContrib a c)) } } :=
  reflect_and_transform_spec a c

/-- C6 counterexample: with a stated preferred location ("Oakland") that the
activity (in Reno) violates, the claim predicts score 0.8 - 0.2 = 0.6 and a
concerns entry; the code leaves the score at 0.8 and the concerns empty. -/
theorem location_violation_not_penalized :
    truthyStr oaklandCtx.preferredLocation = true ∧
    pyInStr "oakland" (pyLower renoActivity.city) = false ∧
    (reflect_and_transform renoActivity oaklandCtx).reflection.concerns = [] ∧
    (reflect_and_transform renoActivity oaklandCtx).reflection.score = 4/5 := by
  refine ⟨by decide, by decide, by decide, by decide⟩

/-- C7: the reflection score always lies in [0, 1], and when all three soft
constraints are stated and satisfied (each contribution is +0.1) the clamp
makes the score exactly 1, not 1.1. -/
theorem reflect_score_within_unit_interval (a : Activity) (c : UserContext) :
    0 ≤ (reflect_and_transform a c).reflection.score ∧
    (reflect_and_transform a c).reflection.score ≤ 1 ∧
    (groupContrib a c = 1/10 → locContrib a c = 1/10 → budgetContrib a c = 1/10 →
      (reflect_and_transform a c).reflection.score = 1) := by
  rw [reflect_and_transform_spec]
  refine ⟨clamp01_nonneg _, clamp01_le_one _, ?_⟩
  intro hg hl hb
  rw [hg, hl, hb]
  norm_num

/-- C7 witness: an activity matching the group size, location and budget of
the stated context caps at exactly 1. -/
theorem reflect_score_within_unit_interval_witness :
    groupContrib sampleActivity fullMatchCtx = 1/10 ∧
    locContrib sampleActivity fullMatchCtx = 1/10 ∧
    budgetContrib sampleActivity fullMatchCtx = 1/10 ∧
    (reflect_and_transform sampleActivity fullMatchCtx).reflection.score = 1 :=
  ⟨by decide, by decide, by decide,
    (reflect_score_within_unit_interval sampleActivity fullMatchCtx).2.2
      (by decide) (by decide) (by decide)⟩

/-- C10: reflect_on_offerings is sufficient exactly when none of the four
need flags is truthy, and its result does not depend on the current
offerings list at all. -/
theorem offerings_sufficiency_ignores_current (cur cur' : List String)
    (needs : UserContext) :
    ((reflect_on_offerings cur needs).areSufficient =
      (!needs.requiresFood && !needs.requiresCertificate &&
       !needs.requiresTransport && !needs.requiresMaterials)) ∧
    reflect_on_offerings cur needs = reflect_on_offerings cur' needs := by
  constructor
  · cases hf : needs.requiresFood <;> cases hc : needs.requiresCertificate <;>
      cases ht : needs.requiresTransport <;> cases hm : needs.requiresMaterials <;>
      simp [reflect_on_offerings, hf, hc, ht, hm]
  · rfl

/-- The complete behaviour graph of `semantic_search_activities`: an empty
query embedding gives the lexical fallback, a non-empty one raises the
pipeline-construction `TypeError`. -/
theorem semantic_search_activities_eq (store : List Activity) (call : SearchCall)
    (query : String) (limit : Nat) (filters : Option MongoFilter) :
    semantic_search_activities store call query limit filters =
      if (generate_embedding call.api).isEmpty then
        .ok (fallback_text_search store query limit filters)
      else
        .error "TypeError: list indices must be integers or slices, not str" := rfl

/-- C1: the claimed behaviour - fall back to the lexical text search when the
embedding is empty OR the similarity aggregation errors, never raising to the
caller - holds only for its empty-embedding half.  What the code does: an
empty query embedding returns the lexical fallback (at most `limit`
activities, each matching the case-insensitive regex disjunction over the
five text fields); a non-empty embedding always raises the
pipeline-construction `TypeError`, identically whatever the aggregation
outcome would have been, and the caller `AgentTools.search_activities` masks
the exception to `[]`. -/
theorem semantic_search_gate (store : List Activity)
    (api : Except String (List ℚ)) (agg agg2 : Except String (List Activity))
    (query : String) (limit : Nat) (filters : Option MongoFilter) :
    (generate_embedding api = [] →
      semantic_search_activities store { api := api, agg := agg } query limit filters =
        .ok (fallback_text_search store query limit filters) ∧
      (fallback_text_search store query limit filters).length ≤ limit ∧
      ∀ a ∈ fallback_text_search store query limit filters,
        fallback_matches query a = true) ∧
    (generate_embedding api ≠ [] →
      semantic_search_activities store { api := api, agg := agg } query limit filters =
        Except.error "TypeError: list indices must be integers or slices, not str" ∧
      semantic_search_activities store { api := api, agg := agg } query limit filters =
        semantic_search_activities store { api := api, agg := agg2 } query limit filters ∧
      search_activities store { api := api, agg := agg } query filters limit = []) := by
  constructor
  · intro h
    refine ⟨?_, ?_, ?_⟩
    · rw [semantic_search_activities_eq]
      simp [h]
    · unfold fallback_text_search
      exact List.length_take_le _ _
    · intro a ha
      unfold fallback_text_search at ha
      have hmem := List.take_subset limit _ ha
      have := (List.mem_filter.mp hmem).2
      exact (Bool.and_eq_true _ _).mp this |>.1
  · intro h
    have hne : (generate_embedding api).isEmpty = false := by
      cases hg : generate_embedding api with
      | nil => exact absurd hg h
      | cons x xs => rfl
    refine ⟨?_, ?_, ?_⟩
    · rw [semantic_search_activities_eq]
      simp [hne]
    · rw [semantic_search_activities_eq, semantic_search_activities_eq]
    · unfold search_activities
      rw [semantic_search_activities_eq]
      simp [hne]

/-- C1 witness: both halves exercised - the embedding-down call answers
through the lexical fallback; a successful one-component embedding raises,
identically for a healthy and a failing aggregation, and the agent-level
caller turns the exception into `[]`. -/
theorem semantic_search_gate_witness :
    (generate_embedding failingSearchCall.api = [] ∧
      (semantic_search_activities [sampleActivity] failingSearchCall "team" 5 none =
        .ok (fallback_text_search [sampleActivity] "team" 5 none) ∧
      (fallback_text_search [sampleActivity] "team" 5 none).length ≤ 5 ∧
      ∀ a ∈ fallback_text_search [sampleActivity] "team" 5 none,
        fallback_matches "team" a = true)) ∧
    (generate_embedding (Except.ok [(1 : ℚ)]) ≠ [] ∧
      (semantic_search_activities [sampleActivity]
          { api := Except.ok [(1 : ℚ)], agg := Except.ok [sampleActivity] } "team" 5 none =
        Except.error "TypeError: list indices must be integers or slices, not str" ∧
      semantic_search_activities [sampleActivity]
          { api := Except.ok [(1 : ℚ)], agg := Except.ok [sampleActivity] } "team" 5 none =
        semantic_search_activities [sampleActivity]
          { api := Except.ok [(1 : ℚ)], agg := Except.error "pipeline down" } "team" 5 none ∧
      search_activities [sampleActivity]
          { api := Except.ok [(1 : ℚ)], agg := Except.ok [sampleActivity] } "team" none 5 = [])) :=
  ⟨⟨rfl, (semantic_search_gate [sampleActivity] failingSearchCall.api
      failingSearchCall.agg failingSearchCall.agg "team" 5 none).1 rfl⟩,
   ⟨fun hcon => List.noConfusion hcon,
    (semantic_search_gate [sampleActivity] (Except.ok [(1 : ℚ)])
      (Except.ok [sampleActivity]) (Except.error "pipeline down") "team" 5 none).2
      (fun hcon => List.noConfusion hcon)⟩⟩

/-- C1 counterexample: with a successfully generated non-empty query embedding
and a perfectly healthy aggregation backend, `semantic_search_activities`
raises a `TypeError` (from `query_embedding["$$this"]` on semantic_search.py
line 160, evaluated while BUILDING the pipeline, before the `try:` of line
177) instead of returning ranked results or the fallback: the
aggregation-error-to-fallback path of the claim is unreachable and an
exception does reach the caller. -/
theorem semantic_search_raises_typeerror :
    semantic_search_activities [sampleActivity]
      { api := Except.ok [(1 : ℚ)], agg := Except.ok [sampleActivity] }
      "team" 5 none =
    Except.error "TypeError: list indices must be integers or slices, not str" := rfl

/-- C4: calling create_recommendation twice with the same
(projectId, activityId, userId) triple, starting from a store with no record
for that triple and a sound id counter, leaves exactly one record for the
triple after each call, and the second call does not grow the collection
(it updates in place). -/
theorem create_recommendation_upserts (db : Db) (p u : String) (a : Activity)
    (r1 r2 : String) (s1 s2 : ℚ)
    (h0 : tripleCount db p a.oid u = 0)
    (hfresh : ∀ r ∈ db.recommendations, r.rid < db.nextRecId) :
    tripleCount (create_recommendation db p u a r1 s1).2 p a.oid u = 1 ∧
    tripleCount (create_recommendation
      (create_recommendation db p u a r1 s1).2 p u a r2 s2).2 p a.oid u = 1 ∧
    (create_recommendation
      (create_recommendation db p u a r1 s1).2 p u a r2 s2).2.recommendations.length =
      (create_recommendation db p u a r1 s1).2.recommendations.length := by
  have hfilter : db.recommendations.filter (recKeyMatch p a.oid u) = [] := by
    have := h0
    unfold tripleCount at this
    exact List.length_eq_zero.mp this
  have hnomatch : ∀ x ∈ db.recommendations, ¬ recKeyMatch p a.oid u x = true := by
    intro x hx hpx
    have hmem : x ∈ db.recommendations.filter (recKeyMatch p a.oid u) :=
      List.mem_filter.mpr ⟨hx, hpx⟩
    rw [hfilter] at hmem
    exact absurd hmem (List.not_mem_nil x)
  have hnone : db.recommendations.find? (recKeyMatch p a.oid u) = none :=
    List.find?_eq_none.mpr hnomatch
  have hmatch1 : recKeyMatch p a.oid u ⟨db.nextRecId, mkRecData p u a r1 s1⟩ = true := by
    simp [recKeyMatch, mkRecData]
  have hmatch2 : ∀ s' r', recKeyMatch p a.oid u ⟨db.nextRecId, mkRecData p u a r' s'⟩ = true := by
    intro s' r'
    simp [recKeyMatch, mkRecData]
  have hdb1 : (create_recommendation db p u a r1 s1).2.recommendations =
      db.recommendations ++ [⟨db.nextRecId, mkRecData p u a r1 s1⟩] := by
    unfold create_recommendation
    simp only [hnone]
  have hdb1id : (create_recommendation db p u a r1 s1).2.nextRecId = db.nextRecId + 1 := by
    unfold create_recommendation
    simp only [hnone]
  have h1 : tripleCount (create_recommendation db p u a r1 s1).2 p a.oid u = 1 := by
    unfold tripleCount
    rw [hdb1, List.filter_append, hfilter]
    simp [hmatch1]
  have hfind2 : (create_recommendation db p u a r1 s1).2.recommendations.find?
      (recKeyMatch p a.oid u) = some ⟨db.nextRecId, mkRecData p u a r1 s1⟩ := by
    rw [hdb1, List.find?_append, hnone]
    simp [hmatch1]
  have hprefix : ∀ x ∈ db.recommendations,
      ¬ (x.rid == (⟨db.nextRecId, mkRecData p u a r1 s1⟩ : RecRecord).rid) = true := by
    intro x hx
    have := hfresh x hx
    simp only [beq_iff_eq]
    omega
  have hdb2 : (create_recommendation
      (create_recommendation db p u a r1 s1).2 p u a r2 s2).2.recommendations =
      db.recommendations ++ [⟨db.nextRecId, mkRecData p u a r2 s2⟩] := by
    unfold create_recommendation
    simp only [hnone, List.find?_append, Option.none_or, hmatch1,
      List.find?_cons_of_pos]
    rw [updateFirst_append_of_none _ _ _ _ hprefix]
    simp [updateFirst]
  refine ⟨h1, ?_, ?_⟩
  · unfold tripleCount
    rw [hdb2, List.filter_append, hfilter]
    simp [hmatch2]
  · rw [hdb2, hdb1]
    simp

/-- C4 witness: on an empty store, the second identical call updates in
place and exactly one record for the triple remains. -/
theorem create_recommendation_upserts_witness :
    tripleCount {} "proj-1" sampleActivity.oid "user-1" = 0 ∧
    (∀ r ∈ (({} : Db)).recommendations, r.rid < (({} : Db)).nextRecId) ∧
    (tripleCount (create_recommendation {} "proj-1" "user-1" sampleActivity "nice" (4/5)).2
        "proj-1" sampleActivity.oid "user-1" = 1 ∧
     tripleCount (create_recommendation
        (create_recommendation {} "proj-1" "user-1" sampleActivity "nice" (4/5)).2
        "proj-1" "user-1" sampleActivity "better" (9/10)).2
        "proj-1" sampleActivity.oid "user-1" = 1 ∧
     (create_recommendation
        (create_recommendation {} "proj-1" "user-1" sampleActivity "nice" (4/5)).2
        "proj-1" "user-1" sampleActivity "better" (9/10)).2.recommendations.length =
       (create_recommendation {} "proj-1" "user-1" sampleActivity "nice" (4/5)).2.recommendations.length) :=
  ⟨by decide, by decide,
    create_recommendation_upserts {} "proj-1" "user-1" sampleActivity "nice" "better"
      (4/5) (9/10) (by decide) (by decide)⟩

@[simp] theorem pushAgentState_project_id (st : SupervisorState) (a s : String) :
    (pushAgentState st a s).project_id = st.project_id := rfl

@[simp] theorem pushAgentState_user_id (st : SupervisorState) (a s : String) :
    (pushAgentState st a s).user_id = st.user_id := rfl

@[simp] theorem pushAgentState_user_prompt (st : SupervisorState) (a s : String) :
    (pushAgentState st a s).user_prompt = st.user_prompt := rfl

@[simp] theorem pushAgentState_agent_history (st : SupervisorState) (a s : String) :
    (pushAgentState st a s).agent_history = st.agent_history := rfl

@[simp] theorem pushAgentState_recommendations (st : SupervisorState) (a s : String) :
    (pushAgentState st a s).recommendations = st.recommendations := rfl

@[simp] theorem pushAgentState_next_agent (st : SupervisorState) (a s : String) :
    (pushAgentState st a s).next_agent = st.next_agent := rfl

@[simp] theorem pushAgentState_current_recommendation_id (st : SupervisorState) (a s : String) :
    (pushAgentState st a s).current_recommendation_id = st.current_recommendation_id := rfl

@[simp] theorem pushAgentState_final_response (st : SupervisorState) (a s : String) :
    (pushAgentState st a s).final_response = st.final_response := rfl

@[simp] theorem pushAgentState_user_context (st : SupervisorState) (a s : String) :
    (pushAgentState st a s).user_context = st.user_context := rfl

theorem recKeyMatch_iff (p aid u : String) (r : RecRecord) :
    recKeyMatch p aid u r = true ↔ recTriple r = (p, aid, u) := by
  unfold recKeyMatch recTriple
  simp [Prod.ext_iff, and_assoc]

/-- An update that preserves the triple and the id of every document it may
touch preserves the store invariant. -/
theorem DbInv_updateFirst (db : Db) (q : RecRecord → Bool) (f : RecRecord → RecRecord)
    (hT : ∀ x ∈ db.recommendations, q x → recTriple (f x) = recTriple x)
    (hI : ∀ x ∈ db.recommendations, q x → (f x).rid = x.rid)
    (h : DbInv db) :
    DbInv { db with recommendations := updateFirst q f db.recommendations } := by
  obtain ⟨h1, h2, h3⟩ := h
  refine ⟨?_, ?_, ?_⟩
  · show ((updateFirst q f db.recommendations).map recTriple).Nodup
    rw [updateFirst_map recTriple q f _ hT]
    exact h1
  · show ((updateFirst q f db.recommendations).map (·.rid)).Nodup
    rw [updateFirst_map (·.rid) q f _ hI]
    exact h2
  · intro r hr
    rcases mem_updateFirst hr with hr' | ⟨x, hx, hq, hrfx⟩
    · exact h3 r hr'
    · show r.rid < db.nextRecId
      rw [hrfx, hI x hx hq]
      exact h3 x hx

theorem create_recommendation_DbInv (db : Db) (p u : String) (a : Activity)
    (reason : String) (s : ℚ) (h : DbInv db) :
    DbInv (create_recommendation db p u a reason s).2 := by
  unfold create_recommendation
  cases hf : db.recommendations.find? (recKeyMatch p a.oid u) with
  | some existing =>
      simp only [hf]
      have hex_mem : existing ∈ db.recommendations := List.mem_of_find?_eq_some hf
      have hex_p : recKeyMatch p a.oid u existing = true := List.find?_some hf
      apply DbInv_updateFirst _ _ _ ?_ ?_ h
      · intro x hx hq
        have hxe : x = existing := by
          refine List.inj_on_of_nodup_map h.2.1 hx hex_mem ?_
          simpa using hq
        subst hxe
        have ht : recTriple x = (p, a.oid, u) := (recKeyMatch_iff _ _ _ x).mp hex_p
        rw [ht]
        rfl
      · intro x hx hq
        rfl
  | none =>
      simp only [hf]
      obtain ⟨h1, h2, h3⟩ := h
      have hnm : ∀ x ∈ db.recommendations, ¬ recKeyMatch p a.oid u x = true :=
        List.find?_eq_none.mp hf
      refine ⟨?_, ?_, ?_⟩
      · show ((db.recommendations ++
          ([{ rid := db.nextRecId, data := mkRecData p u a reason s }] :
            List RecRecord)).map recTriple).Nodup
        rw [List.map_append]
        rw [List.nodup_append]
        refine ⟨h1, List.nodup_singleton _, ?_⟩
        intro t ht ht'
        simp only [List.map_cons, List.map_nil, List.mem_singleton] at ht'
        obtain ⟨x, hx, hxt⟩ := List.mem_map.mp ht
        apply hnm x hx
        apply (recKeyMatch_iff _ _ _ x).mpr
        rw [hxt, ht']
        rfl
      · show ((db.recommendations ++
          ([{ rid := db.nextRecId, data := mkRecData p u a reason s }] :
            List RecRecord)).map (·.rid)).Nodup
        rw [List.map_append]
        rw [List.nodup_append]
        refine ⟨h2, List.nodup_singleton _, ?_⟩
        intro i hi hi'
        simp only [List.map_cons, List.map_nil, List.mem_singleton] at hi'
        obtain ⟨x, hx, hxi⟩ := List.mem_map.mp hi
        have := h3 x hx
        omega
      · intro r hr
        rcases List.mem_append.mp hr with hr' | hr'
        · have := h3 r hr'
          show r.rid < db.nextRecId + 1
          omega
        · simp only [List.mem_singleton] at hr'
          rw [hr']
          show db.nextRecId < db.nextRecId + 1
          omega

theorem reflectCreateLoop_DbInv (p u : String) (ctx : UserContext)
    (acts : List Activity) (recs : List RecRecord) (db : Db) (h : DbInv db) :
    DbInv (reflectCreateLoop p u ctx acts (recs, db)).2 := by
  induction acts generalizing recs db with
  | nil => exact h
  | cons a rest ih =>
      unfold reflectCreateLoop
      by_cases hs : (reflect_and_transform a ctx).reflection.score > 3/10
      · simp only [hs, if_true]
        exact ih _ _ (create_recommendation_DbInv _ _ _ _ _ _ h)
      · simp only [hs, if_false]
        exact ih _ _ h

theorem update_recommendation_itinerary_DbInv (db : Db) (rid : Nat) (uid : String)
    (it : List ItineraryItem) (h : DbInv db) :
    ∀ db', update_recommendation_itinerary db rid uid it = .ok db' → DbInv db' := by
  intro db' hok
  unfold update_recommendation_itinerary at hok
  cases hf : db.recommendations.find?
      (fun r => r.rid == rid && r.data.userId == uid) with
  | none => rw [hf] at hok; exact absurd hok (by simp)
  | some r0 =>
      rw [hf] at hok
      have hdb' : db' = { db with recommendations := (updateFirst
          (fun r => r.rid == rid && r.data.userId == uid)
          (fun r => { r with data := { r.data with itinerary := it } })
          db.recommendations) } :=
        (Except.ok.inj hok).symm
      rw [hdb']
      exact DbInv_updateFirst _ _ _ (fun x _ _ => rfl) (fun x _ _ => rfl) h

theorem update_recommendation_offerings_DbInv (db : Db) (rid : Nat) (uid : String)
    (ids : List String) (h : DbInv db) :
    ∀ db', update_recommendation_offerings db rid uid ids = .ok db' → DbInv db' := by
  intro db' hok
  unfold update_recommendation_offerings at hok
  cases hf : db.recommendations.find?
      (fun r => r.rid == rid && r.data.userId == uid) with
  | none => rw [hf] at hok; exact absurd hok (by simp)
  | some r0 =>
      rw [hf] at hok
      have hdb' : db' = { db with recommendations := (updateFirst
          (fun r => r.rid == rid && r.data.userId == uid)
          (fun r => { r with data := { r.data with offeringIds := ids } })
          db.recommendations) } :=
        (Except.ok.inj hok).symm
      rw [hdb']
      exact DbInv_updateFirst _ _ _ (fun x _ _ => rfl) (fun x _ _ => rfl) h

theorem recommendationFinish_DbInv (o : RecOracle) (st : SupervisorState) (db : Db)
    (activities : List Activity) (pp : PlanParse) (h : DbInv db) :
    DbInv (recommendationFinish o st db activities pp).2 := by
  have hloop := reflectCreateLoop_DbInv st.project_id st.user_id pp.user_context
    (activities.take 3) [] db h
  unfold recommendationFinish
  simp only [pushAgentState_project_id, pushAgentState_user_id]
  repeat' split
  all_goals simp_all

theorem recommendationRun_DbInv (o : RecOracle) (st : SupervisorState) (db : Db)
    (h : DbInv db) : DbInv (recommendationRun o st db).2 := by
  unfold recommendationRun
  cases o.plan with
  | error e => exact h
  | ok content =>
      simp only []
      repeat' split
      all_goals first
        | exact h
        | exact recommendationFinish_DbInv _ _ _ _ _ h

theorem itineraryRun_DbInv (o : ItinOracle) (st : SupervisorState) (db : Db)
    (h : DbInv db) : DbInv (itineraryRun o st db).2 := by
  unfold itineraryRun
  simp only []
  split
  · exact h
  · split
    · exact h
    · split
      · exact h
      · rename_i db' hstep
        have hdb' : DbInv db' := by
          repeat' split at hstep
          all_goals
            first
              | exact Except.noConfusion hstep
              | (obtain rfl := Except.ok.inj hstep
                 first
                   | exact h
                   | exact update_recommendation_itinerary_DbInv _ _ _ _ h _ (by assumption))
        repeat' split
        all_goals exact hdb'

theorem offeringsRun_DbInv (st : SupervisorState) (db : Db)
    (h : DbInv db) : DbInv (offeringsRun st db).2 := by
  unfold offeringsRun
  simp only []
  split
  · exact h
  · split
    · exact h
    · split
      · exact h
      · rename_i db' hstep
        have hdb' : DbInv db' := by
          repeat' split at hstep
          all_goals
            first
              | exact update_recommendation_offerings_DbInv _ _ _ _ h _ hstep
              | (obtain rfl := Except.ok.inj hstep
                 exact h)
        exact hdb'

theorem runGraph_DbInv (o : GraphOracle) (st : SupervisorState) (db : Db)
    (h : DbInv db) : DbInv (runGraph o st db).2 := by
  unfold runGraph
  cases hr : recommendationRun o.recommendation st db with
  | mk r1 db1 =>
      have hdb1 : DbInv db1 := by
        have := recommendationRun_DbInv o.recommendation st db h
        rw [hr] at this
        exact this
      cases r1 with
      | error e => exact hdb1
      | ok s1 =>
          simp only []
          split
          · cases hi : itineraryRun o.itin s1 db1 with
            | mk r2 db2 =>
                have hdb2 : DbInv db2 := by
                  have := itineraryRun_DbInv o.itin s1 db1 hdb1
                  rw [hi] at this
                  exact this
                cases r2 with
                | error e => exact hdb2
                | ok s2 =>
                    simp only []
                    split
                    · exact offeringsRun_DbInv s2 db2 hdb2
                    · exact hdb2
          · exact offeringsRun_DbInv s1 db1 hdb1
          · exact hdb1

theorem nodup_append_singleton {l : List String} {a : String}
    (h : l.Nodup) (ha : a ∉ l) : (l ++ [a]).Nodup := by
  rw [List.nodup_append]
  exact ⟨h, List.nodup_singleton a, by
    intro x hx hx'
    simp only [List.mem_singleton] at hx'
    exact ha (hx' ▸ hx)⟩

theorem history_step_nodup {h1 h2 : List String} {name : String}
    (hcase : h2 = h1 ∨ (name ∉ h1 ∧ h2 = h1 ++ [name])) (hnd : h1.Nodup) :
    h2.Nodup := by
  rcases hcase with rfl | ⟨hno, rfl⟩
  · exact hnd
  · exact nodup_append_singleton hnd hno

theorem history_step_not_mem {h1 h2 : List String} {name other : String}
    (hcase : h2 = h1 ∨ (name ∉ h1 ∧ h2 = h1 ++ [name]))
    (hno : other ∉ h1) (hne : other ≠ name) : other ∉ h2 := by
  rcases hcase with rfl | ⟨_, rfl⟩
  · exact hno
  · intro hmem
    rcases List.mem_append.mp hmem with hmem | hmem
    · exact hno hmem
    · simp only [List.mem_singleton] at hmem
      exact hne hmem

theorem recommendationFinish_history (o : RecOracle) (st : SupervisorState)
    (db : Db) (activities : List Activity) (pp : PlanParse)
    (h0 : st.agent_history = []) :
    ∀ s, (recommendationFinish o st db activities pp).1 = .ok s →
      s.agent_history = ["recommendation"] := by
  intro s hs
  unfold recommendationFinish at hs
  simp only [] at hs
  repeat' split at hs
  all_goals
    first
      | exact Except.noConfusion hs
      | (obtain rfl := Except.ok.inj hs
         simp_all [pushAgentState, h0])

theorem recommendationRun_history (o : RecOracle) (st : SupervisorState)
    (db : Db) (h0 : st.agent_history = []) :
    ∀ s, (recommendationRun o st db).1 = .ok s →
      s.agent_history = [] ∨ s.agent_history = ["recommendation"] := by
  intro s hs
  unfold recommendationRun at hs
  cases hp : o.plan with
  | error e =>
      rw [hp] at hs
      exact Except.noConfusion hs
  | ok content =>
      rw [hp] at hs
      simp only [] at hs
      repeat' split at hs
      all_goals
        first
          | exact Except.noConfusion hs
          | (obtain rfl := Except.ok.inj hs
             left
             simp [pushAgentState, h0])
          | exact .inr (recommendationFinish_history o _ db _ _
              (by simp [pushAgentState, h0]) s hs)

theorem itineraryRun_history (o : ItinOracle) (st : SupervisorState) (db : Db) :
    ∀ s, (itineraryRun o st db).1 = .ok s →
      s.agent_history = st.agent_history ∨
      ("itinerary_builder" ∉ st.agent_history ∧
        s.agent_history = st.agent_history ++ ["itinerary_builder"]) := by
  intro s hs
  unfold itineraryRun at hs
  simp only [] at hs
  repeat' split at hs
  all_goals
    first
      | (obtain rfl := Except.ok.inj hs
         first
           | exact Or.inl rfl
           | (have hmemo : "itinerary_builder" ∉
                  (pushAgentState st "itinerary_builder" "started").agent_history := by
                assumption
              rw [pushAgentState_agent_history] at hmemo
              exact Or.inr ⟨hmemo, rfl⟩))
      | exact Except.noConfusion hs

theorem offeringsRun_history (st : SupervisorState) (db : Db) :
    ∀ s, (offeringsRun st db).1 = .ok s →
      s.agent_history = st.agent_history ∨
      ("offerings" ∉ st.agent_history ∧
        s.agent_history = st.agent_history ++ ["offerings"]) := by
  intro s hs
  unfold offeringsRun at hs
  simp only [] at hs
  repeat' split at hs
  all_goals
    first
      | (obtain rfl := Except.ok.inj hs
         first
           | exact Or.inl rfl
           | (have hmemo : "offerings" ∉
                  (pushAgentState st "offerings" "started").agent_history := by
                assumption
              rw [pushAgentState_agent_history] at hmemo
              exact Or.inr ⟨hmemo, rfl⟩))
      | exact Except.noConfusion hs

theorem runGraph_history_nodup (o : GraphOracle) (st : SupervisorState)
    (db : Db) (h0 : st.agent_history = []) :
    ∀ s, (runGraph o st db).1 = .ok s → s.agent_history.Nodup := by
  intro s hs
  unfold runGraph at hs
  cases hr : recommendationRun o.recommendation st db with
  | mk r1 db1 =>
    rw [hr] at hs
    cases r1 with
    | error e => exact Except.noConfusion hs
    | ok s1 =>
      have h1 : s1.agent_history = [] ∨ s1.agent_history = ["recommendation"] := by
        apply recommendationRun_history o.recommendation st db h0 s1
        rw [hr]
      have h1nodup : s1.agent_history.Nodup := by
        rcases h1 with h | h <;> simp [h]
      have h1noR : "itinerary_builder" ∉ s1.agent_history := by
        rcases h1 with h | h <;> simp [h]
      have h1noO : "offerings" ∉ s1.agent_history := by
        rcases h1 with h | h <;> simp [h]
      simp only [] at hs
      split at hs
      · cases hi : itineraryRun o.itin s1 db1 with
        | mk r2 db2 =>
          rw [hi] at hs
          cases r2 with
          | error e => exact Except.noConfusion hs
          | ok s2 =>
            have h2 := itineraryRun_history o.itin s1 db1 s2 (by rw [hi])
            have h2nodup : s2.agent_history.Nodup := history_step_nodup h2 h1nodup
            have h2noO : "offerings" ∉ s2.agent_history :=
              history_step_not_mem h2 h1noO (by decide)
            simp only [] at hs
            split at hs
            · cases ho : offeringsRun s2 db2 with
              | mk r3 db3 =>
                rw [ho] at hs
                cases r3 with
                | error e => exact Except.noConfusion hs
                | ok s3 =>
                    obtain rfl := Except.ok.inj hs
                    have h3 := offeringsRun_history s2 db2 s3 (by rw [ho])
                    exact history_step_nodup h3 h2nodup
            · obtain rfl := Except.ok.inj hs
              exact h2nodup
      · cases ho : offeringsRun s1 db1 with
        | mk r3 db3 =>
          rw [ho] at hs
          cases r3 with
          | error e => exact Except.noConfusion hs
          | ok s3 =>
              obtain rfl := Except.ok.inj hs
              have h3 := offeringsRun_history s1 db1 s3 (by rw [ho])
              exact history_step_nodup h3 h1nodup
      · obtain rfl := Except.ok.inj hs
        exact h1nodup

/-- C2: starting from a sound store, within one orchestration run every agent
name appears at most once in agent_history (for either of two sequential
runs), and running the full graph twice in sequence keeps the store free of
duplicate recommendation records for any (project, activity, user) triple. -/
theorem graph_no_duplicate_agents_or_records (o1 o2 : GraphOracle)
    (p1 p2 uid1 uid2 pid1 pid2 t1 t2 : String) (db : Db) (hdb : DbInv db) :
    (∀ s, (runGraph o1 (initialState p1 uid1 pid1 t1) db).1 = .ok s →
        ∀ name, s.agent_history.count name ≤ 1) ∧
    (∀ s, (runGraph o2 (initialState p2 uid2 pid2 t2)
        (runGraph o1 (initialState p1 uid1 pid1 t1) db).2).1 = .ok s →
        ∀ name, s.agent_history.count name ≤ 1) ∧
    DbInv (runGraph o2 (initialState p2 uid2 pid2 t2)
        (runGraph o1 (initialState p1 uid1 pid1 t1) db).2).2 ∧
    ((runGraph o2 (initialState p2 uid2 pid2 t2)
        (runGraph o1 (initialState p1 uid1 pid1 t1) db).2).2.recommendations.map
          recTriple).Nodup := by
  have hdb1 := runGraph_DbInv o1 (initialState p1 uid1 pid1 t1) db hdb
  have hdb2 := runGraph_DbInv o2 (initialState p2 uid2 pid2 t2) _ hdb1
  refine ⟨?_, ?_, hdb2, hdb2.1⟩
  · intro s hs name
    exact List.nodup_iff_count_le_one.mp
      (runGraph_history_nodup o1 _ db rfl s hs) name
  · intro s hs name
    exact List.nodup_iff_count_le_one.mp
      (runGraph_history_nodup o2 _ _ rfl s hs) name

/-- C2 witness: over a one-activity store, a full create-route-update run
followed by a second run (which upserts the same activity) keeps the store
duplicate-free. -/
theorem graph_no_duplicate_agents_or_records_witness :
    DbInv sampleDb ∧
    ((∀ s, (runGraph mainOracle
        (initialState "Team Building" "user-1" "proj-1" "uuid-1") sampleDb).1 = .ok s →
        ∀ name, s.agent_history.count name ≤ 1) ∧
    (∀ s, (runGraph mainOracle (initialState "Team Building" "user-1" "proj-1" "uuid-2")
        (runGraph mainOracle
          (initialState "Team Building" "user-1" "proj-1" "uuid-1") sampleDb).2).1 = .ok s →
        ∀ name, s.agent_history.count name ≤ 1) ∧
    DbInv (runGraph mainOracle (initialState "Team Building" "user-1" "proj-1" "uuid-2")
        (runGraph mainOracle
          (initialState "Team Building" "user-1" "proj-1" "uuid-1") sampleDb).2).2 ∧
    ((runGraph mainOracle (initialState "Team Building" "user-1" "proj-1" "uuid-2")
        (runGraph mainOracle
          (initialState "Team Building" "user-1" "proj-1" "uuid-1") sampleDb).2).2.recommendations.map
          recTriple).Nodup) :=
  ⟨by decide,
    graph_no_duplicate_agents_or_records mainOracle mainOracle
      "Team Building" "Team Building" "user-1" "user-1" "proj-1" "proj-1"
      "uuid-1" "uuid-2" sampleDb (by decide)⟩

theorem recommendationRun_no_results (o : RecOracle) (st : SupervisorState)
    (db : Db) (cPlan cClar : String)
    (hplan : o.plan = .ok cPlan) (hclar : o.clarify = .ok cClar)
    (hs1 : ∀ q f n, search_activities db.activities o.search1 q f n = [])
    (hs2 : ∀ q f n, search_activities db.activities o.search2 q f n = []) :
    ∃ s, recommendationRun o st db = (.ok s, db) ∧
      s.final_response = cClar ∧ s.recommendations = st.recommendations ∧
      s.agent_history = st.agent_history ∧ s.next_agent = none := by
  unfold recommendationRun
  rw [hplan]
  simp only [hs1, hs2, hclar, List.isEmpty_nil, if_true]
  exact ⟨_, rfl, rfl, rfl, rfl, rfl⟩

/-- C9 (amended): when both the filtered search and the broadened fallback
search return no activities, the run ends with the clarifying LLM response
as final_response, an empty recommendations list and routing straight to
terminal — but agentsUsed is EMPTY, because this early-return path never
appends "recommendation" to agent_history. -/
theorem zero_results_clarifying_question (o : GraphOracle)
    (u p uid pid : String) (targ : Option String) (db : Db)
    (cPlan cClar : String)
    (hplan : o.recommendation.plan = .ok cPlan)
    (hclar : o.recommendation.clarify = .ok cClar)
    (hs1 : ∀ q f n, search_activities db.activities o.recommendation.search1 q f n = [])
    (hs2 : ∀ q f n, search_activities db.activities o.recommendation.search2 q f n = []) :
    ∃ s, (runGraph o (initialState p uid pid u) db).1 = .ok s ∧
      s.final_response = cClar ∧ s.recommendations = [] ∧
      s.agent_history = [] ∧ s.next_agent = none ∧ route_next s = none ∧
      (SupervisorAgent_run o u p uid pid targ db).1.message = cClar ∧
      (SupervisorAgent_run o u p uid pid targ db).1.agentsUsed = [] ∧
      (SupervisorAgent_run o u p uid pid targ db).1.recommendations = [] := by
  obtain ⟨s, hrun, hfinal, hrecs, hhist, hnext⟩ :=
    recommendationRun_no_results o.recommendation (initialState p uid pid u) db
      cPlan cClar hplan hclar hs1 hs2
  have hroute : route_next s = none := by
    unfold route_next
    rw [hnext]
  have hgraph : runGraph o (initialState p uid pid u) db = (.ok s, db) := by
    unfold runGraph
    rw [hrun]
    simp only []
    rw [hroute]
  have hsup : (SupervisorAgent_run o u p uid pid targ db).1 =
      { message := s.final_response
        recommendations := s.recommendations
        agentsUsed := s.agent_history
        threadId := u
        projectId := pid
        projectName := s.suggested_project_name
        projectDescription := s.suggested_project_description
        errorDetail := none
        recommendationCount := some s.recommendations.length } := by
    unfold SupervisorAgent_run
    simp only []
    rw [hgraph]
  refine ⟨s, by rw [hgraph], hfinal, ?_, ?_, hnext, hroute, ?_, ?_, ?_⟩
  · rw [hrecs]; rfl
  · rw [hhist]; rfl
  · rw [hsup]; exact hfinal
  · rw [hsup]; show s.agent_history = []
    rw [hhist]; rfl
  · rw [hsup]; show s.recommendations = []
    rw [hrecs]; rfl

/-- C9 counterexample: on an empty store every search is empty; the run ends
with the clarifying response, but agentsUsed is [] — not
["recommendation"] as the claim states. -/
theorem zero_results_agents_used_is_empty :
    (SupervisorAgent_run mainOracle "uuid-9" "an obscure request" "user-1" "proj-1"
      none {}).1.agentsUsed = [] ∧
    (SupervisorAgent_run mainOracle "uuid-9" "an obscure request" "user-1" "proj-1"
      none {}).1.agentsUsed ≠ ["recommendation"] ∧
    (SupervisorAgent_run mainOracle "uuid-9" "an obscure request" "user-1" "proj-1"
      none {}).1.message = "Could you tell me more about what you are looking for?" ∧
    (SupervisorAgent_run mainOracle "uuid-9" "an obscure request" "user-1" "proj-1"
      none {}).1.recommendations = [] := by
  refine ⟨?_, ?_, ?_, ?_⟩ <;> decide

/-- C5: any exception escaping the agent chain is caught by both supervisor
run entry points: the caller receives the fixed apology message, an empty
recommendations list and the error detail only in the metadata error field. -/
theorem supervisor_catches_exceptions (o : GraphOracle) (ro : RefOracle)
    (u p uid pid : String) (targ : Option String) (db : Db) (e e' : String) :
    ((runGraph o (initialState p uid pid u) db).1 = .error e →
      (SupervisorAgent_run o u p uid pid targ db).1 =
        { message := apologyMessage
          recommendations := []
          agentsUsed := []
          threadId := u
          projectId := pid
          projectName := none
          projectDescription := none
          errorDetail := some e
          recommendationCount := none }) ∧
    (refRunGraph ro (refInitialState p uid pid u) = .error e' →
      SupervisorAgentRefactored_run ro u p uid pid none =
        { message := apologyMessage
          recommendations := []
          agentsUsed := []
          threadId := u
          projectId := pid
          projectName := none
          projectDescription := none
          errorDetail := some e'
          recommendationCount := none }) := by
  constructor
  · intro h
    unfold SupervisorAgent_run
    simp only []
    cases hr : runGraph o (initialState p uid pid u) db with
    | mk r1 db1 =>
        rw [hr] at h
        replace h : r1 = .error e := h
        rw [h]
  · intro h
    unfold SupervisorAgentRefactored_run
    simp only []
    rw [h]

/-- C5 witness: a failing planning LLM call (original system) and a failing
loop LLM call (refactored system) both degrade to the apology result. -/
theorem supervisor_catches_exceptions_witness :
    (runGraph failingOracle (initialState "plan" "user-1" "proj-1" "uuid-5") {}).1 =
      .error "llm timeout" ∧
    refRunGraph failingRefOracle (refInitialState "plan" "user-1" "proj-1" "uuid-5") =
      .error "llm down" ∧
    (SupervisorAgent_run failingOracle "uuid-5" "plan" "user-1" "proj-1" none {}).1 =
      { message := apologyMessage
        recommendations := []
        agentsUsed := []
        threadId := "uuid-5"
        projectId := "proj-1"
        projectName := none
        projectDescription := none
        errorDetail := some "llm timeout"
        recommendationCount := none } ∧
    SupervisorAgentRefactored_run failingRefOracle "uuid-5" "plan" "user-1" "proj-1" none =
      { message := apologyMessage
        recommendations := []
        agentsUsed := []
        threadId := "uuid-5"
        projectId := "proj-1"
        projectName := none
        projectDescription := none
        errorDetail := some "llm down"
        recommendationCount := none } :=
  ⟨by decide, by decide,
    (supervisor_catches_exceptions failingOracle failingRefOracle
      "uuid-5" "plan" "user-1" "proj-1" none {} "llm timeout" "llm down").1 (by decide),
    (supervisor_catches_exceptions failingOracle failingRefOracle
      "uuid-5" "plan" "user-1" "proj-1" none {} "llm timeout" "llm down").2 (by decide)⟩

theorem SupervisorAgent_run_threadId (o : GraphOracle) (u p uid pid : String)
    (targ : Option String) (db : Db) :
    (SupervisorAgent_run o u p uid pid targ db).1.threadId = u := by
  unfold SupervisorAgent_run
  simp only []
  split <;> rfl

theorem SupervisorAgentRefactored_run_threadId_none (ro : RefOracle)
    (u p uid pid : String) :
    (SupervisorAgentRefactored_run ro u p uid pid none).threadId = u := by
  unfold SupervisorAgentRefactored_run
  simp only []
  split <;> rfl

/-- C3 (amended): SupervisorAgent.run always overwrites any provided
thread_id with the freshly generated uuid, so two sequential calls with
distinct fresh uuids return distinct runId values regardless of the
projectId, and every run starts from the literal initial state whose
agent_history and other collections are empty.
SupervisorAgentRefactored.run regenerates the thread_id only when none (or a
falsy one) is provided; with no thread_id argument it too uses the fresh
uuid, and its initial state is likewise empty. -/
theorem run_thread_identity (o o' : GraphOracle) (ro : RefOracle)
    (u1 u2 : String) (hne : u1 ≠ u2) (p1 p2 uid1 uid2 pid : String)
    (t1 t2 : Option String) (db1 db2 : Db) :
    (SupervisorAgent_run o u1 p1 uid1 pid t1 db1).1.threadId = u1 ∧
    (SupervisorAgent_run o' u2 p2 uid2 pid t2 db2).1.threadId = u2 ∧
    (SupervisorAgent_run o u1 p1 uid1 pid t1 db1).1.threadId ≠
      (SupervisorAgent_run o' u2 p2 uid2 pid t2 db2).1.threadId ∧
    (SupervisorAgentRefactored_run ro u1 p1 uid1 pid none).threadId = u1 ∧
    (initialState p1 uid1 pid u1).agent_history = [] ∧
    (initialState p1 uid1 pid u1).recommendations = [] ∧
    (initialState p1 uid1 pid u1).agent_states = [] ∧
    (initialState p1 uid1 pid u1).user_context = {} ∧
    (initialState p1 uid1 pid u1).current_recommendation_id = none ∧
    (refInitialState p1 uid1 pid u1).agent_history = [] ∧
    (refInitialState p1 uid1 pid u1).recommendations = [] := by
  refine ⟨SupervisorAgent_run_threadId o u1 p1 uid1 pid t1 db1,
    SupervisorAgent_run_threadId o' u2 p2 uid2 pid t2 db2, ?_,
    SupervisorAgentRefactored_run_threadId_none ro u1 p1 uid1 pid,
    rfl, rfl, rfl, rfl, rfl, rfl, rfl⟩
  rw [SupervisorAgent_run_threadId, SupervisorAgent_run_threadId]
  exact hne

/-- C3 witness: two sequential original-supervisor runs with the same
projectId and distinct fresh uuids return distinct runIds. -/
theorem run_thread_identity_witness :
    "uuid-a" ≠ "uuid-b" ∧
    ((SupervisorAgent_run mainOracle "uuid-a" "Team Building" "user-1" "proj-1"
        (some "stale-thread") sampleDb).1.threadId = "uuid-a" ∧
    (SupervisorAgent_run mainOracle "uuid-b" "Team Building" "user-1" "proj-1"
        (some "stale-thread") sampleDb).1.threadId = "uuid-b" ∧
    (SupervisorAgent_run mainOracle "uuid-a" "Team Building" "user-1" "proj-1"
        (some "stale-thread") sampleDb).1.threadId ≠
      (SupervisorAgent_run mainOracle "uuid-b" "Team Building" "user-1" "proj-1"
        (some "stale-thread") sampleDb).1.threadId ∧
    (SupervisorAgentRefactored_run simpleRefOracle "uuid-a" "Team Building" "user-1"
        "proj-1" none).threadId = "uuid-a" ∧
    (initialState "Team Building" "user-1" "proj-1" "uuid-a").agent_history = [] ∧
    (initialState "Team Building" "user-1" "proj-1" "uuid-a").recommendations = [] ∧
    (initialState "Team Building" "user-1" "proj-1" "uuid-a").agent_states = [] ∧
    (initialState "Team Building" "user-1" "proj-1" "uuid-a").user_context = {} ∧
    (initialState "Team Building" "user-1" "proj-1" "uuid-a").current_recommendation_id = none ∧
    (refInitialState "Team Building" "user-1" "proj-1" "uuid-a").agent_history = [] ∧
    (refInitialState "Team Building" "user-1" "proj-1" "uuid-a").recommendations = []) :=
  ⟨by decide,
    run_thread_identity mainOracle mainOracle simpleRefOracle "uuid-a" "uuid-b"
      (by decide) "Team Building" "Team Building" "user-1" "user-1" "proj-1"
      (some "stale-thread") (some "stale-thread") sampleDb sampleDb⟩

/-- C3 counterexample: the refactored run entry point reuses a provided
thread_id, so two sequential calls with the same projectId and the same
stored thread_id return the SAME runId even though the fresh uuids differ. -/
theorem refactored_run_reuses_thread_id :
    (SupervisorAgentRefactored_run simpleRefOracle "uuid-1" "plan team event"
      "user-1" "proj-1" (some "thread-7")).threadId = "thread-7" ∧
    (SupervisorAgentRefactored_run simpleRefOracle "uuid-2" "plan team event"
      "user-1" "proj-1" (some "thread-7")).threadId = "thread-7" ∧
    (SupervisorAgentRefactored_run simpleRefOracle "uuid-1" "plan team event"
      "user-1" "proj-1" (some "thread-7")).threadId =
    (SupervisorAgentRefactored_run simpleRefOracle "uuid-2" "plan team event"
      "user-1" "proj-1" (some "thread-7")).threadId := by
  refine ⟨?_, ?_, ?_⟩ <;> decide

/-- C9 witness: on the empty store both searches are empty; the amended
behaviour (clarifying response, empty recommendations, empty agentsUsed,
terminal routing) follows. -/
theorem zero_results_clarifying_question_witness :
    mainOracle.recommendation.plan = .ok "PLAN" ∧
    mainOracle.recommendation.clarify =
      .ok "Could you tell me more about what you are looking for?" ∧
    (∀ q f n, search_activities (({} : Db)).activities
      mainOracle.recommendation.search1 q f n = []) ∧
    (∀ q f n, search_activities (({} : Db)).activities
      mainOracle.recommendation.search2 q f n = []) ∧
    (∃ s, (runGraph mainOracle
        (initialState "an obscure request" "user-1" "proj-1" "uuid-9") {}).1 = .ok s ∧
      s.final_response = "Could you tell me more about what you are looking for?" ∧
      s.recommendations = [] ∧ s.agent_history = [] ∧ s.next_agent = none ∧
      route_next s = none ∧
      (SupervisorAgent_run mainOracle "uuid-9" "an obscure request" "user-1" "proj-1"
        none {}).1.message = "Could you tell me more about what you are looking for?" ∧
      (SupervisorAgent_run mainOracle "uuid-9" "an obscure request" "user-1" "proj-1"
        none {}).1.agentsUsed = [] ∧
      (SupervisorAgent_run mainOracle "uuid-9" "an obscure request" "user-1" "proj-1"
        none {}).1.recommendations = []) :=
  ⟨rfl, rfl,
    fun q f n => by
      simp [search_activities, semantic_search_activities, generate_embedding,
        mainOracle, mainRecOracle, failingSearchCall, fallback_text_search],
    fun q f n => by
      simp [search_activities, semantic_search_activities, generate_embedding,
        mainOracle, mainRecOracle, failingSearchCall, fallback_text_search],
    zero_results_clarifying_question mainOracle "uuid-9" "an obscure request"
      "user-1" "proj-1" none {} "PLAN"
      "Could you tell me more about what you are looking for?" rfl rfl
      (fun q f n => by
        simp [search_activities, semantic_search_activities, generate_embedding,
          mainOracle, mainRecOracle, failingSearchCall, fallback_text_search])
      (fun q f n => by
        simp [search_activities, semantic_search_activities, generate_embedding,
          mainOracle, mainRecOracle, failingSearchCall, fallback_text_search])⟩

@[simp] theorem toolAgentState_recsCreated (ls : LoopState) (n : String) :
    (toolAgentState ls n).recsCreated = ls.recsCreated := by
  unfold toolAgentState
  repeat' split
  all_goals rfl

@[simp] theorem toolAgentState_final_response (ls : LoopState) (n : String) :
    (toolAgentState ls n).final_response = ls.final_response := by
  unfold toolAgentState
  repeat' split
  all_goals rfl

theorem string_append_data (s t : String) : (s ++ t).data = s.data ++ t.data := by
  cases s
  cases t
  rfl

theorem append_ne_empty_left (s t : String) (hs : s ≠ "") : s ++ t ≠ "" := by
  intro hcon
  apply hs
  have hd := congrArg String.data hcon
  rw [string_append_data] at hd
  have hnil : s.data ++ t.data = ([] : List Char) := by simpa using hd
  have h2 : s.data = [] := (List.append_eq_nil.mp hnil).1
  cases s
  simp only [] at h2
  rw [h2]

theorem fallbackResponse_ne_empty (n : Nat) : fallbackResponse n ≠ "" := by
  unfold fallbackResponse
  split
  · exact append_ne_empty_left ("I have added " ++ toString n) _
      (append_ne_empty_left "I have added " _ (by decide))
  · decide

theorem cappedFallbackResponse_ne_empty : cappedFallbackResponse ≠ "" := by
  decide

theorem execToolCalls_le (tcs : List ToolCallEv) (ls : LoopState)
    (h : ls.recsCreated.length ≤ 4) :
    (execToolCalls ls tcs).recsCreated.length ≤ 4 := by
  induction tcs generalizing ls with
  | nil => exact h
  | cons tc rest ih =>
      unfold execToolCalls
      split
      · exact h
      · rename_i hguard
        split
        · split
          · exact ih _ (by simpa using h)
          · rename_i res hres
            by_cases hc : (tc.name == "create_recommendation") = true
            · have hlen : ls.recsCreated.length < 4 := by
                rw [hc] at hguard
                simp at hguard
                omega
              simp only [hc, if_true]
              repeat' split
              all_goals
                first
                  | (simp
                     omega)
                  | (apply ih
                     simp
                     omega)
            · have hc' : (tc.name == "create_recommendation") = false := by
                simpa using hc
              repeat' split
              all_goals simp_all
        · exact ih _ (by simpa using h)

theorem toolLoop_spec (o : RefOracle) (fuel : Nat) :
    ∀ (iter : Nat) (ls : LoopState), ls.recsCreated.length ≤ 4 →
    ∀ ls' ex it, toolLoop o fuel iter ls = .ok (ls', ex, it) →
      ls'.recsCreated.length ≤ 4 ∧ it ≤ iter + fuel ∧
      (ex ≠ LoopExit.fuelOut → ls'.final_response ≠ "") := by
  induction fuel with
  | zero =>
      intro iter ls h ls' ex it hok
      unfold toolLoop at hok
      have hok' := Except.ok.inj hok
      simp only [Prod.mk.injEq] at hok'
      obtain ⟨rfl, rfl, rfl⟩ := hok'
      exact ⟨h, by omega, fun hne => absurd rfl hne⟩
  | succ fuel ih =>
      intro iter ls h ls' ex it hok
      unfold toolLoop at hok
      simp only [] at hok
      split at hok
      · exact Except.noConfusion hok
      · rename_i turn hturn
        split at hok
        · have hok' := Except.ok.inj hok
          simp only [Prod.mk.injEq] at hok'
          obtain ⟨hls, rfl, rfl⟩ := hok'
          subst hls
          refine ⟨?_, by omega, fun _ => ?_⟩
          · repeat' split
            all_goals simpa using h
          · repeat' split
            all_goals
              first
                | assumption
                | exact fallbackResponse_ne_empty _
                | (rename_i hc hf
                   simpa using hf)
        · split at hok
          · rename_i hcap
            have hok' := Except.ok.inj hok
            simp only [Prod.mk.injEq] at hok'
            obtain ⟨hls, rfl, rfl⟩ := hok'
            subst hls
            refine ⟨?_, by omega, fun _ => ?_⟩
            · have := execToolCalls_le turn.tool_calls
                { ls with msgs := ls.msgs ++ [turn.content] } (by simpa using h)
              simpa using this
            · exact cappedFallbackResponse_ne_empty
          · have hrec := ih (iter + 1)
              (execToolCalls { ls with msgs := ls.msgs ++ [turn.content] } turn.tool_calls)
              (execToolCalls_le _ _ (by simpa using h)) ls' ex it hok
            exact ⟨hrec.1, by omega, hrec.2.2⟩

/-- C8 (amended): the tool-calling loop runs at most 10 iterations and never
creates more than 4 recommendations (the cap blocks further creations, though
the loop may keep iterating after the cap when a conversational response was
already produced); whenever the loop exits because the LLM returned no tool
calls, or because the cap fired with no response yet, final_response is
non-empty (a templated fallback is substituted when needed); only the path
that exhausts all 10 iterations with tool calls in every one can end with an
empty final_response. -/
theorem tool_loop_bounds (o : RefOracle) (ls0 : LoopState) (st : RefAgentState)
    (h0 : ls0.recsCreated = []) (hst : st.recommendations = []) :
    (∀ ls ex it, toolLoop o 10 0 ls0 = .ok (ls, ex, it) →
       it ≤ 10 ∧ ls.recsCreated.length ≤ 4 ∧
       (ex ≠ LoopExit.fuelOut → ls.final_response ≠ "")) ∧
    (∀ s, RecommendationAgentWithTools_run o st = .ok s →
       s.recommendations.length ≤ 4) := by
  constructor
  · intro ls ex it hok
    have := toolLoop_spec o 10 0 ls0 (by simp [h0]) ls ex it hok
    exact ⟨by omega, this.1, this.2.2⟩
  · intro s hs
    unfold RecommendationAgentWithTools_run at hs
    split at hs
    · obtain rfl := Except.ok.inj hs
      simp [hst]
    · split at hs <;>
        (simp only [] at hs
         split at hs
         · exact Except.noConfusion hs
         · rename_i ls exx its heq
           obtain rfl := Except.ok.inj hs
           have := toolLoop_spec o 10 0 _ (by simp) ls exx its heq
           simpa using this.1)

/-- C8 counterexample: an LLM that requests a search in all 10 iterations
ends the run with an EMPTY final_response; and an LLM that produces its
conversational response before the 4th recommendation keeps looping past the
cap to the 10-iteration ceiling (so the loop does not stop once 4
recommendations exist). -/
theorem tool_loop_empty_final_response :
    (∃ s, RecommendationAgentWithTools_run busyRefOracle sampleRefState = .ok s ∧
       s.final_response = "" ∧ s.agent_history = ["recommendation"]) ∧
    (∃ r, toolLoop capAfterResponseOracle 10 0 emptyLoopState = .ok r ∧
       r.2.1 = LoopExit.fuelOut ∧ r.2.2 = 10 ∧ r.1.recsCreated.length = 4 ∧
       r.1.final_response = "Here are your picks!") := by
  refine ⟨⟨_, rfl, ?_, ?_⟩, ⟨_, rfl, ?_, ?_, ?_, ?_⟩⟩ <;> decide

/-- C8 witness: an immediately-closing LLM satisfies the loop bounds. -/
theorem tool_loop_bounds_witness :
    emptyLoopState.recsCreated = [] ∧
    sampleRefState.recommendations = [] ∧
    ((∀ ls ex it, toolLoop simpleRefOracle 10 0 emptyLoopState = .ok (ls, ex, it) →
       it ≤ 10 ∧ ls.recsCreated.length ≤ 4 ∧
       (ex ≠ LoopExit.fuelOut → ls.final_response ≠ "")) ∧
    (∀ s, RecommendationAgentWithTools_run simpleRefOracle sampleRefState = .ok s →
       s.recommendations.length ≤ 4)) :=
  ⟨rfl, rfl, tool_loop_bounds simpleRefOracle emptyLoopState sampleRefState rfl rfl⟩

end Drew
